import Mathlib

/-!
AP_InertialSensor_PX4: sampling pipeline

A shallow embedding of `libraries/AP_InertialSensor/AP_InertialSensor_PX4.cpp`:
the accumulator run from the timer (`_accumulate`), the downsample query
(`num_samples_available`), the consumer step (`update`) with its snapshot,
calibration and filter reconfiguration, and the initialisation (`_init_sensor`).

Conventions.
* Machine integers are `Nat` with an explicit reduction where the source type wraps
  (`uint32_t` counters, `uint64_t` timestamps, `uint16_t`/`uint32_t` return values,
  the `uint8_t` parameter of `_set_filter_frequency`).
* The scalar type of `Vector3f` and of `_delta_time` is a type parameter `F` with the
  operations the source uses (`*`, `-`, conversion from an unsigned integer, the
  literal `1.0e-6`); every theorem holds for each such `F`, in particular for `ℚ`
  (exact arithmetic).
* The two sensor devices are FIFO queues of reports; `::read` pops the head and
  fails on an empty queue.
* `ioctl` calls are recorded, in order, in `ioctl_log`.
-/

namespace AP_InertialSensor_PX4

/-- Three-component vector (`Vector3f` of AP_Math). -/
structure Vector3 (F : Type) where
  x : F
  y : F
  z : F
deriving DecidableEq, Repr

/-- Modelled from the spec: `Vector3f::operator-=` (AP_Math, absent from the sources)
subtracts the offset componentwise. -/
def Vector3.sub {F : Type} [Sub F] (a b : Vector3 F) : Vector3 F :=
  ⟨a.x - b.x, a.y - b.y, a.z - b.z⟩

/-- The fields of `struct accel_report` / `struct gyro_report` the driver reads. -/
structure Report (F : Type) where
  timestamp : Nat
  x : F
  y : F
  z : F
deriving DecidableEq, Repr

/-- File descriptors the driver issues `ioctl` on. -/
inductive Fd where
  | accel
  | gyro
deriving DecidableEq, Repr

/-- The `ioctl` requests used by the driver. -/
inductive IoctlReq where
  | ACCELIOCSSAMPLERATE
  | GYROIOCSSAMPLERATE
  | SENSORIOCSPOLLRATE
  | SENSORIOCSQUEUEDEPTH
  | GYROIOCSLOWPASS
  | ACCELIOCSLOWPASS
deriving DecidableEq, Repr

/-- One recorded `ioctl(fd, req, arg)` call. -/
structure IoctlCall where
  fd : Fd
  req : IoctlReq
  arg : Nat
deriving DecidableEq, Repr

/-- The argument of `_init_sensor`; `RATE_OTHER` stands for any value outside the three
named enumerators (it reaches the `default:` label of the switch). -/
inductive Sample_rate where
  | RATE_50HZ
  | RATE_100HZ
  | RATE_200HZ
  | RATE_OTHER
deriving DecidableEq, Repr

/-- Driver state: the static members defined at the top of the source file, the two
device queues behind `_accel_fd` / `_gyro_fd`, the instance members and the inherited
configuration the source reads, and the trace of `ioctl` calls. The instance members and
the configuration are declared in headers outside the sources: `_last_update_usec` is
taken as a 64-bit value (the specification's `timestamp_us: u64`), the filter fields and
the divider as unsigned values stored without conversion. -/
structure State (F : Type) (Rot : Type) where
  _accel_in : Vector3 F
  _accel_count : Nat
  _gyro_in : Vector3 F
  _gyro_count : Nat
  _in_accumulate : Bool
  _last_accel_timestamp : Nat
  _last_gyro_timestamp : Nat
  _accel_fd : Int
  _gyro_fd : Int
  accel_dev : List (Report F)
  gyro_dev : List (Report F)
  _sample_divider : Nat
  _default_filter_hz : Nat
  _last_filter_hz : Nat
  _last_update_usec : Nat
  _delta_time : F
  _accel : Vector3 F
  _gyro : Vector3 F
  _mpu6000_filter : Nat
  _accel_scale : Vector3 F
  _accel_offset : Vector3 F
  _gyro_offset : Vector3 F
  _board_orientation : Rot
  timer_registered : Bool
  ioctl_log : List IoctlCall

section Model

variable {F : Type} {Rot : Type}

/-- Record one `ioctl` call. -/
def ioctl (fd : Fd) (req : IoctlReq) (arg : Nat) (s : State F Rot) : State F Rot :=
  { s with ioctl_log := s.ioctl_log ++ [⟨fd, req, arg⟩] }

/-- The accel loop of `_accumulate` (lines 167-172), by recursion on the device queue:
a failed read (empty queue) ends the loop; a report whose timestamp equals
`_last_accel_timestamp` has been read (popped) and ends the loop; any other report is
stored, counted (`uint32_t` increment) and its timestamp recorded. -/
def accel_loop : List (Report F) → State F Rot → State F Rot
  | [], s => { s with accel_dev := [] }
  | r :: rest, s =>
    if r.timestamp ≠ s._last_accel_timestamp then
      accel_loop rest
        { s with _accel_in := ⟨r.x, r.y, r.z⟩,
                 _accel_count := (s._accel_count + 1) % 2 ^ 32,
                 _last_accel_timestamp := r.timestamp }
    else
      { s with accel_dev := rest }

/-- The gyro loop of `_accumulate` (lines 174-179). -/
def gyro_loop : List (Report F) → State F Rot → State F Rot
  | [], s => { s with gyro_dev := [] }
  | r :: rest, s =>
    if r.timestamp ≠ s._last_gyro_timestamp then
      gyro_loop rest
        { s with _gyro_in := ⟨r.x, r.y, r.z⟩,
                 _gyro_count := (s._gyro_count + 1) % 2 ^ 32,
                 _last_gyro_timestamp := r.timestamp }
    else
      { s with gyro_dev := rest }

/-- The function `_accumulate` (lines 157-182). -/
def _accumulate (s : State F Rot) : State F Rot :=
  if s._in_accumulate then s
  else
    let s1 := { s with _in_accumulate := true }
    let s2 := accel_loop s1.accel_dev s1
    let s3 := gyro_loop s2.gyro_dev s2
    { s3 with _in_accumulate := false }

/-- The timer callback `_ins_timer` (lines 184-187). -/
def _ins_timer (_now : Nat) (s : State F Rot) : State F Rot :=
  _accumulate s

/-- The function `num_samples_available` (lines 189-193): one accumulation pass, then
`min(_accel_count, _gyro_count) / _sample_divider` converted to `uint16_t`. A zero
divider has no defined result (`none`). -/
def num_samples_available (s : State F Rot) : Option Nat × State F Rot :=
  let s1 := _accumulate s
  (if s1._sample_divider = 0 then none
   else some ((min s1._accel_count s1._gyro_count / s1._sample_divider) % 2 ^ 16), s1)

/-- The function `_set_filter_frequency` (lines 90-97); the parameter is a `uint8_t`. -/
def _set_filter_frequency (filter_hz : Nat) (s : State F Rot) : State F Rot :=
  let filter_hz := filter_hz % 2 ^ 8
  let filter_hz := if filter_hz = 0 then s._default_filter_hz else filter_hz
  let s1 := ioctl Fd.gyro IoctlReq.GYROIOCSLOWPASS filter_hz s
  ioctl Fd.accel IoctlReq.ACCELIOCSLOWPASS filter_hz s1

/-- The switch of `_init_sensor` (lines 31-45): `(msec_per_sample, _default_filter_hz)`. -/
def rate_settings : Sample_rate → Nat × Nat
  | Sample_rate.RATE_50HZ => (20, 15)
  | Sample_rate.RATE_100HZ => (10, 30)
  | Sample_rate.RATE_200HZ => (5, 30)
  | Sample_rate.RATE_OTHER => (5, 30)

/-- The driver rate chosen at lines 58-62. -/
def driver_rate ( CONFIG_ARCH_BOARD_PX4FMU_V1 : Bool) : Nat :=
  if CONFIG_ARCH_BOARD_PX4FMU_V1 then 1000 else 800

/-- The function `_init_sensor` (lines 27-85). `open_accel` and `open_gyro` are the results
of the two `open` calls; a negative one makes the scheduler panic (no return).
`AP_PRODUCT_ID_PX4` is the returned constant (defined outside the sources). -/
def _init_sensor ( CONFIG_ARCH_BOARD_PX4FMU_V1 : Bool) ( AP_PRODUCT_ID_PX4 : Nat)
    (open_accel open_gyro : Int) (sample_rate : Sample_rate) (s : State F Rot) :
    Except String (Nat × State F Rot) :=
  let msec_per_sample := (rate_settings sample_rate).1
  let s := { s with _default_filter_hz := (rate_settings sample_rate).2 }
  let s := { s with _accel_fd := open_accel }
  if s._accel_fd < 0 then Except.error "Unable to open accel device"
  else
    let s := { s with _gyro_fd := open_gyro }
    if s._gyro_fd < 0 then Except.error "Unable to open gyro device"
    else
      let rate := driver_rate CONFIG_ARCH_BOARD_PX4FMU_V1
      let s := ioctl Fd.accel IoctlReq.ACCELIOCSSAMPLERATE rate s
      let s := ioctl Fd.accel IoctlReq.SENSORIOCSPOLLRATE rate s
      let s := ioctl Fd.gyro IoctlReq.GYROIOCSSAMPLERATE rate s
      let s := ioctl Fd.gyro IoctlReq.SENSORIOCSPOLLRATE rate s
      let s := ioctl Fd.accel IoctlReq.SENSORIOCSQUEUEDEPTH 20 s
      let s := ioctl Fd.gyro IoctlReq.SENSORIOCSQUEUEDEPTH 20 s
      let s := { s with _sample_divider := ((rate * msec_per_sample) % 2 ^ 32) / 1000 }
      let s := { s with timer_registered := true }
      let s := _set_filter_frequency s._mpu6000_filter s
      Except.ok (AP_PRODUCT_ID_PX4, s)

/-- The wait loop of `update` (lines 103-105). `delay` is the effect of
`hal.scheduler->delay(1)` on the state (samples arriving, timer callbacks); the loop
runs at most `fuel` polls. -/
def update_wait (delay : State F Rot → State F Rot) : Nat → State F Rot → Option (State F Rot)
  | 0, _ => none
  | fuel + 1, s =>
    match num_samples_available s with
    | (none, _) => none
    | (some n, s1) => if n = 0 then update_wait delay fuel (delay s1) else some s1

/-- The snapshot of `update` (lines 108-121, between `suspend_timer_procs` and
`resume_timer_procs`): elapsed time from the gyro timestamp (`uint64_t` subtraction,
converted and multiplied by `1.0e-6f`), copy of both vectors, reset of both counts. -/
def update_snapshot [Mul F] [NatCast F] [OfScientific F] (s : State F Rot) : State F Rot :=
  let s := { s with _delta_time :=
    (((s._last_gyro_timestamp + 2 ^ 64 - s._last_update_usec) % 2 ^ 64 : Nat) : F) * (1.0e-6 : F) }
  let s := { s with _last_update_usec := s._last_gyro_timestamp }
  let s := { s with _accel := s._accel_in }
  let s := { s with _accel_count := 0 }
  let s := { s with _gyro := s._gyro_in }
  { s with _gyro_count := 0 }

/-- The calibration of `update` (lines 124-131). `rotate` is `Vector3f::rotate` (AP_Math,
outside the sources); `accel_scale` is the copy taken at line 106. -/
def update_calibrate [Mul F] [Sub F] (rotate : Rot → Vector3 F → Vector3 F)
    (accel_scale : Vector3 F) (s : State F Rot) : State F Rot :=
  let s := { s with _accel := rotate s._board_orientation s._accel }
  let s := { s with _accel := { s._accel with x := s._accel.x * accel_scale.x } }
  let s := { s with _accel := { s._accel with y := s._accel.y * accel_scale.y } }
  let s := { s with _accel := { s._accel with z := s._accel.z * accel_scale.z } }
  let s := { s with _accel := s._accel.sub s._accel_offset }
  let s := { s with _gyro := rotate s._board_orientation s._gyro }
  { s with _gyro := s._gyro.sub s._gyro_offset }

/-- The filter check of `update` (lines 133-136). -/
def update_filter (s : State F Rot) : State F Rot :=
  if s._last_filter_hz ≠ s._mpu6000_filter then
    let s := _set_filter_frequency s._mpu6000_filter s
    { s with _last_filter_hz := s._mpu6000_filter }
  else s

/-- The part of `update` after the wait loop (lines 106-138). -/
def update_body [Mul F] [Sub F] [NatCast F] [OfScientific F]
    (rotate : Rot → Vector3 F → Vector3 F) (s : State F Rot) : State F Rot :=
  let accel_scale := s._accel_scale
  let s := update_snapshot s
  let s := update_calibrate rotate accel_scale s
  update_filter s

/-- The function `update` (lines 101-139): wait until a batch is available, then snapshot,
calibrate and check the filter; returns `true`. `none` when the wait is not over after
`fuel` polls. -/
def update [Mul F] [Sub F] [NatCast F] [OfScientific F]
    (rotate : Rot → Vector3 F → Vector3 F) (delay : State F Rot → State F Rot)
    (fuel : Nat) (s : State F Rot) : Option (Bool × State F Rot) :=
  match update_wait delay fuel s with
  | none => none
  | some s1 => some (true, update_body rotate s1)

/-- The accessor `get_delta_time` (lines 141-144). -/
def get_delta_time (s : State F Rot) : F :=
  s._delta_time

/-- The accessor `get_last_sample_time_micros` (lines 146-149); the return type is
`uint32_t`. -/
def get_last_sample_time_micros (s : State F Rot) : Nat :=
  s._last_update_usec % 2 ^ 32

/-- The outcome of one source loop of `_accumulate` as a function of the queue and of the
stored (vector, count, last timestamp): the new three values and the unread queue. -/
def drain : List (Report F) → Vector3 F → Nat → Nat → Vector3 F × Nat × Nat × List (Report F)
  | [], v, c, t => (v, c, t, [])
  | r :: rest, v, c, t =>
    if r.timestamp ≠ t then drain rest ⟨r.x, r.y, r.z⟩ ((c + 1) % 2 ^ 32) r.timestamp
    else (v, c, t, rest)

/-- Every report of the queue carries a timestamp different from the one recorded just
before it is read: the first differs from `t`, each later one from its predecessor. -/
def fresh : Nat → List (Report F) → Bool
  | _, [] => true
  | t, r :: rest => decide (r.timestamp ≠ t) && fresh r.timestamp rest

/-- The value `_set_filter_frequency` passes to both `ioctl` calls. -/
def programmed_hz (filter_hz default_filter_hz : Nat) : Nat :=
  if filter_hz % 2 ^ 8 = 0 then default_filter_hz else filter_hz % 2 ^ 8

/-- The two `ioctl` calls of one filter reprogram with value `v`. -/
def reprogram_calls (v : Nat) : List IoctlCall :=
  [⟨Fd.gyro, IoctlReq.GYROIOCSLOWPASS, v⟩, ⟨Fd.accel, IoctlReq.ACCELIOCSLOWPASS, v⟩]

/-- The filter writes among recorded `ioctl` calls. -/
def lowpass_calls (log : List IoctlCall) : List IoctlCall :=
  log.filter (fun c => c.req = IoctlReq.GYROIOCSLOWPASS || c.req = IoctlReq.ACCELIOCSLOWPASS)

/-- The six `ioctl` calls of `_init_sensor` that set rates and queue depth (lines 67-74). -/
def setup_calls (rate : Nat) : List IoctlCall :=
  [⟨Fd.accel, IoctlReq.ACCELIOCSSAMPLERATE, rate⟩, ⟨Fd.accel, IoctlReq.SENSORIOCSPOLLRATE, rate⟩,
   ⟨Fd.gyro, IoctlReq.GYROIOCSSAMPLERATE, rate⟩, ⟨Fd.gyro, IoctlReq.SENSORIOCSPOLLRATE, rate⟩,
   ⟨Fd.accel, IoctlReq.SENSORIOCSQUEUEDEPTH, 20⟩, ⟨Fd.gyro, IoctlReq.SENSORIOCSQUEUEDEPTH, 20⟩]

/-- The state `_init_sensor` returns when both `open` calls succeed. -/
def init_post ( CONFIG_ARCH_BOARD_PX4FMU_V1 : Bool) (open_accel open_gyro : Int)
    (sample_rate : Sample_rate) (s : State F Rot) : State F Rot :=
  let rate := driver_rate CONFIG_ARCH_BOARD_PX4FMU_V1
  let s := { s with _default_filter_hz := (rate_settings sample_rate).2,
                    _accel_fd := open_accel, _gyro_fd := open_gyro }
  let s := ioctl Fd.accel IoctlReq.ACCELIOCSSAMPLERATE rate s
  let s := ioctl Fd.accel IoctlReq.SENSORIOCSPOLLRATE rate s
  let s := ioctl Fd.gyro IoctlReq.GYROIOCSSAMPLERATE rate s
  let s := ioctl Fd.gyro IoctlReq.SENSORIOCSPOLLRATE rate s
  let s := ioctl Fd.accel IoctlReq.SENSORIOCSQUEUEDEPTH 20 s
  let s := ioctl Fd.gyro IoctlReq.SENSORIOCSQUEUEDEPTH 20 s
  let s := { s with
    _sample_divider := ((rate * (rate_settings sample_rate).1) % 2 ^ 32) / 1000,
    timer_registered := true }
  _set_filter_frequency s._mpu6000_filter s

/-- Effective cutoff in the words of the specification: the configured cutoff if it is
nonzero, else the default cutoff. -/
def spec_effective_cutoff (s : State F Rot) : Nat :=
  if s._mpu6000_filter ≠ 0 then s._mpu6000_filter else s._default_filter_hz

/-- The timestamps of the queue never go back: the first is at least `t`, each later one
at least its predecessor. -/
def increasing : Nat → List (Report F) → Bool
  | _, [] => true
  | t, r :: rest => decide (t ≤ r.timestamp) && increasing r.timestamp rest

/-- The devices now hold the reports `qa` (accel) and `qg` (gyro): samples fed by the
raw sample source. -/
def feed (qa qg : List (Report F)) (s : State F Rot) : State F Rot :=
  { s with accel_dev := qa, gyro_dev := qg }

/-- The `uint64_t` difference `_last_gyro_timestamp - _last_update_usec` that line 112
converts and scales into `_delta_time`. -/
def usec_diff (s : State F Rot) : Nat :=
  (s._last_gyro_timestamp + 2 ^ 64 - s._last_update_usec) % 2 ^ 64

/-- The states at the snapshot times of consecutive `update` calls: the previous timestamp
`_last_update_usec` of each state is the one stored by the `update` body run on the
state before it (line 113 is the only write of the field). -/
def consecutive [Mul F] [Sub F] [NatCast F] [OfScientific F]
    (rotate : Rot → Vector3 F → Vector3 F) : List (State F Rot) → Bool
  | a :: b :: rest =>
    decide (b._last_update_usec = (update_body rotate a)._last_update_usec) &&
      consecutive rotate (b :: rest)
  | _ => true

/-- The gyro timestamps of the states are 64-bit values that never go back, starting
from `p`: p <= g_1 <= ... <= g_n < 2^64. -/
def nondecreasing : Nat → List (State F Rot) → Bool
  | _, [] => true
  | p, s :: rest =>
    decide (p ≤ s._last_gyro_timestamp) && decide (s._last_gyro_timestamp < 2 ^ 64) &&
      nondecreasing s._last_gyro_timestamp rest

end Model

/-! ## Concrete inputs -/

section Inputs

/-- A report with timestamp `t` and vector `(a, b, c)`. -/
def mkReport (t : Nat) (a b c : ℚ) : Report ℚ := ⟨t, a, b, c⟩

/-- Reports with timestamps `t0 + 1, ..., t0 + n` and vector `(i, 2 i, 3 i)` for the i-th. -/
def ramp (t0 n : Nat) : List (Report ℚ) :=
  (List.range n).map (fun i => mkReport (t0 + i + 1) i (2 * i) (3 * i))

/-- A rotation by a quarter turn about the z axis: `(x, y, z) ↦ (-y, x, z)`. -/
def yaw90 (_r : Unit) (v : Vector3 ℚ) : Vector3 ℚ := ⟨-v.y, v.x, v.z⟩

/-- The zero-initialised driver object with the given configured cutoff and device queues. -/
def zeroState (cfg : Nat) (qa qg : List (Report ℚ)) : State ℚ Unit :=
  { _accel_in := ⟨0, 0, 0⟩, _accel_count := 0, _gyro_in := ⟨0, 0, 0⟩, _gyro_count := 0,
    _in_accumulate := false, _last_accel_timestamp := 0, _last_gyro_timestamp := 0,
    _accel_fd := 0, _gyro_fd := 0, accel_dev := qa, gyro_dev := qg,
    _sample_divider := 0, _default_filter_hz := 0, _last_filter_hz := 0,
    _last_update_usec := 0, _delta_time := 0, _accel := ⟨0, 0, 0⟩, _gyro := ⟨0, 0, 0⟩,
    _mpu6000_filter := cfg, _accel_scale := ⟨1, 1, 1⟩, _accel_offset := ⟨0, 0, 0⟩,
    _gyro_offset := ⟨0, 0, 0⟩, _board_orientation := (), timer_registered := false,
    ioctl_log := [] }

/-- The input of the C1 counterexample: divider 4, both counts 0, guard flag clear, eight
gyro reports with timestamps 1..8 and eight accel reports with timestamps
1, 2, 3, 4, 4, 5, 6, 7 (the fifth repeats the timestamp of the fourth). -/
def c1_input : State ℚ Unit :=
  { zeroState 0 (ramp 0 4 ++ ramp 3 4) (ramp 0 8) with _sample_divider := 4 }

/-- The input of the witnesses: divider 4, eight accel and eight gyro reports with
timestamps 1..8, configured cutoff 20, accel scale (2, 3, 4), accel offset (1, 1, 1),
gyro offset (1, 2, 3). -/
def w_input : State ℚ Unit :=
  { zeroState 20 (ramp 0 8) (ramp 0 8) with
    _sample_divider := 4, _accel_scale := ⟨2, 3, 4⟩, _accel_offset := ⟨1, 1, 1⟩,
    _gyro_offset := ⟨1, 2, 3⟩ }

/-- The input of the C5 and C8 evaluations: the zero-initialised driver object with
configured cutoff 20 and eight accel and eight gyro reports (timestamps 1..8) queued. -/
def c5_pre : State ℚ Unit := zeroState 20 (ramp 0 8) (ramp 0 8)

/-- The result of `_init_sensor(RATE_100HZ)` on `c5_pre` (800 Hz driver rate, both `open`
calls succeeding with descriptors 3 and 4, product id 4). -/
def c5_init : Except String (Nat × State ℚ Unit) :=
  _init_sensor false 4 3 4 Sample_rate.RATE_100HZ c5_pre

/-- The input of the C6 counterexample: configured cutoff 0, default cutoff 30, recorded
cutoff 30, divider 4 and eight reports queued on each source. -/
def c6_input : State ℚ Unit :=
  { zeroState 0 (ramp 0 8) (ramp 0 8) with
    _sample_divider := 4, _default_filter_hz := 30, _last_filter_hz := 30 }

/-- The input of the C9 counterexample: divider 4, four accel reports with timestamps
1..4 and four gyro reports with timestamps 2^32 + 1 .. 2^32 + 4. -/
def c9_input : State ℚ Unit :=
  { zeroState 0 (ramp 0 4) (ramp (2 ^ 32) 4) with _sample_divider := 4 }

/-- The input of the C10 witness: `w_input` with the guard flag set. -/
def c10_input : State ℚ Unit := { w_input with _in_accumulate := true }

/-- The input of the C13 counterexample: accel count 2^32 - 1 and one accel report with
timestamp 1 queued (recorded last timestamp 0). -/
def c13_input : State ℚ Unit :=
  { zeroState 0 [mkReport 1 1 2 3] [] with _accel_count := 2 ^ 32 - 1 }

/-- The input of the C16 counterexample: gyro count 2^32 - 1 and one gyro report with
timestamp 5 queued (recorded last timestamp 0). -/
def c16_input : State ℚ Unit :=
  { zeroState 0 [] [mkReport 5 1 2 3] with _gyro_count := 2 ^ 32 - 1 }

/-- The input of the C17 witness: accel reports with timestamps 1, 2, 2, 9 and gyro
reports with timestamps 0, 7 on the zero-initialised object (recorded timestamps 0). -/
def c17_input : State ℚ Unit :=
  zeroState 0 [mkReport 1 1 1 1, mkReport 2 2 2 2, mkReport 2 3 3 3, mkReport 9 4 4 4]
    [mkReport 0 5 5 5, mkReport 7 6 6 6]

/-- The input of the C11 witness: the driver after `_init_sensor(RATE_200HZ)` on the
zero-initialised object (800 Hz driver rate). -/
def c11_init : State ℚ Unit := init_post false 3 4 Sample_rate.RATE_200HZ (zeroState 0 [] [])

/-- The first snapshot-time state of the C18 witness: `w_input` after one accumulation
pass (previous timestamp 0, gyro timestamp 8). -/
def c18_first : State ℚ Unit := _accumulate w_input

/-- The second snapshot-time state of the C18 witness: after the `update` body on the
first one, the devices are fed eight more reports each (timestamps 9..16) and one
accumulation pass runs (previous timestamp 8, gyro timestamp 16). -/
def c18_second : State ℚ Unit :=
  _accumulate (feed (ramp 8 8) (ramp 8 8) (update_body yaw90 c18_first))

/-- The third snapshot-time state of the C18 witness: after the `update` body on the
second one, four more accel and gyro reports (timestamps 17..20) are accumulated. -/
def c18_third : State ℚ Unit :=
  _accumulate (feed (ramp 16 4) (ramp 16 4) (update_body yaw90 c18_second))

end Inputs

/-! ## Lemmas on the accumulator -/

section Lemmas

variable {F : Type} {Rot : Type}

theorem accel_loop_eq (q : List (Report F)) (s : State F Rot) :
    accel_loop q s =
      { s with
        _accel_in := (drain q s._accel_in s._accel_count s._last_accel_timestamp).1,
        _accel_count := (drain q s._accel_in s._accel_count s._last_accel_timestamp).2.1,
        _last_accel_timestamp :=
          (drain q s._accel_in s._accel_count s._last_accel_timestamp).2.2.1,
        accel_dev := (drain q s._accel_in s._accel_count s._last_accel_timestamp).2.2.2 } := by
  induction q generalizing s with
  | nil => rfl
  | cons r rest ih =>
    by_cases h : r.timestamp = s._last_accel_timestamp
    · simp [accel_loop, drain, h]
    · simp [accel_loop, drain, h, ih]

theorem gyro_loop_eq (q : List (Report F)) (s : State F Rot) :
    gyro_loop q s =
      { s with
        _gyro_in := (drain q s._gyro_in s._gyro_count s._last_gyro_timestamp).1,
        _gyro_count := (drain q s._gyro_in s._gyro_count s._last_gyro_timestamp).2.1,
        _last_gyro_timestamp :=
          (drain q s._gyro_in s._gyro_count s._last_gyro_timestamp).2.2.1,
        gyro_dev := (drain q s._gyro_in s._gyro_count s._last_gyro_timestamp).2.2.2 } := by
  induction q generalizing s with
  | nil => rfl
  | cons r rest ih =>
    by_cases h : r.timestamp = s._last_gyro_timestamp
    · simp [gyro_loop, drain, h]
    · simp [gyro_loop, drain, h, ih]

theorem drain_count_fresh (q : List (Report F)) (v : Vector3 F) (c t : Nat)
    (hf : fresh t q = true) (hc : c + q.length < 2 ^ 32) :
    (drain q v c t).2.1 = c + q.length ∧ (drain q v c t).2.2.2 = [] := by
  induction q generalizing v c t with
  | nil => simp [drain]
  | cons r rest ih =>
    simp only [fresh, Bool.and_eq_true, decide_eq_true_eq] at hf
    simp only [List.length_cons] at hc
    have hlt : (c + 1) % 2 ^ 32 = c + 1 := Nat.mod_eq_of_lt (by omega)
    simp only [drain, hf.1, if_true, hlt, ne_eq, not_false_eq_true]
    have := ih ⟨r.x, r.y, r.z⟩ (c + 1) r.timestamp hf.2 (by omega)
    simp only [List.length_cons]
    constructor
    · rw [this.1]; omega
    · exact this.2

theorem accumulate_clear (s : State F Rot) (h : s._in_accumulate = false) :
    _accumulate s =
      { s with
        _accel_in := (drain s.accel_dev s._accel_in s._accel_count s._last_accel_timestamp).1,
        _accel_count :=
          (drain s.accel_dev s._accel_in s._accel_count s._last_accel_timestamp).2.1,
        _last_accel_timestamp :=
          (drain s.accel_dev s._accel_in s._accel_count s._last_accel_timestamp).2.2.1,
        accel_dev :=
          (drain s.accel_dev s._accel_in s._accel_count s._last_accel_timestamp).2.2.2,
        _gyro_in := (drain s.gyro_dev s._gyro_in s._gyro_count s._last_gyro_timestamp).1,
        _gyro_count := (drain s.gyro_dev s._gyro_in s._gyro_count s._last_gyro_timestamp).2.1,
        _last_gyro_timestamp :=
          (drain s.gyro_dev s._gyro_in s._gyro_count s._last_gyro_timestamp).2.2.1,
        gyro_dev := (drain s.gyro_dev s._gyro_in s._gyro_count s._last_gyro_timestamp).2.2.2,
        _in_accumulate := false } := by
  simp [_accumulate, h, accel_loop_eq, gyro_loop_eq]

theorem update_filter_accel (s : State F Rot) : (update_filter s)._accel = s._accel := by
  unfold update_filter; split <;> rfl

theorem update_filter_gyro (s : State F Rot) : (update_filter s)._gyro = s._gyro := by
  unfold update_filter; split <;> rfl

theorem update_filter_counts (s : State F Rot) :
    (update_filter s)._accel_count = s._accel_count ∧
      (update_filter s)._gyro_count = s._gyro_count := by
  unfold update_filter; split <;> exact ⟨rfl, rfl⟩

theorem update_filter_time (s : State F Rot) :
    (update_filter s)._delta_time = s._delta_time ∧
      (update_filter s)._last_update_usec = s._last_update_usec := by
  unfold update_filter; split <;> exact ⟨rfl, rfl⟩

theorem update_of_wait [Mul F] [Sub F] [NatCast F] [OfScientific F]
    (rotate : Rot → Vector3 F → Vector3 F) (delay : State F Rot → State F Rot)
    (fuel : Nat) (s s1 : State F Rot) (hw : update_wait delay fuel s = some s1) :
    update rotate delay fuel s = some (true, update_body rotate s1) := by
  simp [update, hw]

theorem update_wait_ready (delay : State F Rot → State F Rot) (fuel n : Nat)
    (s : State F Rot) (h : (num_samples_available s).1 = some n) (hn : n ≠ 0) :
    update_wait delay (fuel + 1) s = some (_accumulate s) := by
  have h2 : (num_samples_available s).2 = _accumulate s := rfl
  rcases hh : num_samples_available s with ⟨o, s2⟩
  rw [hh] at h h2
  simp only at h h2
  subst h h2
  simp [update_wait, hh, hn]

theorem sub64_of_le (g p : Nat) (hpg : p ≤ g) (hg : g < 2 ^ 64) :
    (g + 2 ^ 64 - p) % 2 ^ 64 = g - p := by
  have h : g + 2 ^ 64 - p = (g - p) + 2 ^ 64 := by omega
  rw [h, Nat.add_mod_right, Nat.mod_eq_of_lt (by omega)]

theorem set_filter_frequency_log (filter_hz : Nat) (s : State F Rot) :
    (_set_filter_frequency filter_hz s).ioctl_log =
      s.ioctl_log ++ reprogram_calls (programmed_hz filter_hz s._default_filter_hz) := by
  simp [_set_filter_frequency, ioctl, reprogram_calls, programmed_hz]

theorem update_filter_log (s : State F Rot) :
    (update_filter s).ioctl_log =
      (if s._last_filter_hz ≠ s._mpu6000_filter then
        s.ioctl_log ++ reprogram_calls (programmed_hz s._mpu6000_filter s._default_filter_hz)
       else s.ioctl_log) ∧
    (update_filter s)._last_filter_hz = s._mpu6000_filter := by
  unfold update_filter
  by_cases h : s._last_filter_hz = s._mpu6000_filter
  · simp [h]
  · simp only [ne_eq, h, not_false_eq_true, if_true]
    exact ⟨set_filter_frequency_log _ _, rfl⟩

theorem init_sensor_ok ( CONFIG_ARCH_BOARD_PX4FMU_V1 : Bool) ( AP_PRODUCT_ID_PX4 : Nat)
    (open_accel open_gyro : Int) (sample_rate : Sample_rate) (s : State F Rot)
    (ha : 0 ≤ open_accel) (hg : 0 ≤ open_gyro) :
    _init_sensor CONFIG_ARCH_BOARD_PX4FMU_V1 AP_PRODUCT_ID_PX4 open_accel open_gyro
        sample_rate s =
      Except.ok (AP_PRODUCT_ID_PX4,
        init_post CONFIG_ARCH_BOARD_PX4FMU_V1 open_accel open_gyro sample_rate s) := by
  have h1 : ¬ open_accel < 0 := by omega
  have h2 : ¬ open_gyro < 0 := by omega
  simp only [_init_sensor, h1, h2, if_false]
  rfl

theorem ioctl_fields (fd : Fd) (req : IoctlReq) (arg : Nat) (s : State F Rot) :
    (ioctl fd req arg s).ioctl_log = s.ioctl_log ++ [⟨fd, req, arg⟩] ∧
    (ioctl fd req arg s)._default_filter_hz = s._default_filter_hz ∧
    (ioctl fd req arg s)._last_filter_hz = s._last_filter_hz ∧
    (ioctl fd req arg s)._mpu6000_filter = s._mpu6000_filter ∧
    (ioctl fd req arg s)._sample_divider = s._sample_divider :=
  ⟨rfl, rfl, rfl, rfl, rfl⟩

theorem set_filter_frequency_fields (filter_hz : Nat) (s : State F Rot) :
    (_set_filter_frequency filter_hz s)._default_filter_hz = s._default_filter_hz ∧
    (_set_filter_frequency filter_hz s)._last_filter_hz = s._last_filter_hz ∧
    (_set_filter_frequency filter_hz s)._mpu6000_filter = s._mpu6000_filter ∧
    (_set_filter_frequency filter_hz s)._sample_divider = s._sample_divider :=
  ⟨rfl, rfl, rfl, rfl⟩

theorem init_post_fields ( CONFIG_ARCH_BOARD_PX4FMU_V1 : Bool)
    (open_accel open_gyro : Int) (sample_rate : Sample_rate) (s : State F Rot) :
    (init_post CONFIG_ARCH_BOARD_PX4FMU_V1 open_accel open_gyro sample_rate
        s)._default_filter_hz = (rate_settings sample_rate).2 ∧
    (init_post CONFIG_ARCH_BOARD_PX4FMU_V1 open_accel open_gyro sample_rate
        s)._last_filter_hz = s._last_filter_hz ∧
    (init_post CONFIG_ARCH_BOARD_PX4FMU_V1 open_accel open_gyro sample_rate
        s)._mpu6000_filter = s._mpu6000_filter ∧
    (init_post CONFIG_ARCH_BOARD_PX4FMU_V1 open_accel open_gyro sample_rate
        s)._sample_divider =
      ((driver_rate CONFIG_ARCH_BOARD_PX4FMU_V1 * (rate_settings sample_rate).1) % 2 ^ 32)
        / 1000 ∧
    (init_post CONFIG_ARCH_BOARD_PX4FMU_V1 open_accel open_gyro sample_rate s).ioctl_log =
      s.ioctl_log ++ setup_calls (driver_rate CONFIG_ARCH_BOARD_PX4FMU_V1) ++
        reprogram_calls (programmed_hz s._mpu6000_filter (rate_settings sample_rate).2) := by
  refine ⟨?_, ?_, ?_, ?_, ?_⟩
  · simp only [init_post, (set_filter_frequency_fields _ _).1, (ioctl_fields _ _ _ _).2.1]
  · simp only [init_post, (set_filter_frequency_fields _ _).2.1, (ioctl_fields _ _ _ _).2.2.1]
  · simp only [init_post, (set_filter_frequency_fields _ _).2.2.1,
      (ioctl_fields _ _ _ _).2.2.2.1]
  · simp only [init_post, (set_filter_frequency_fields _ _).2.2.2]
  · simp only [init_post, set_filter_frequency_log, (ioctl_fields _ _ _ _).1,
      (ioctl_fields _ _ _ _).2.1, (ioctl_fields _ _ _ _).2.2.2.1, setup_calls,
      List.append_assoc, List.cons_append, List.nil_append]

theorem lowpass_calls_append (l1 l2 : List IoctlCall) :
    lowpass_calls (l1 ++ l2) = lowpass_calls l1 ++ lowpass_calls l2 := by
  simp [lowpass_calls]

theorem lowpass_calls_setup (rate : Nat) : lowpass_calls (setup_calls rate) = [] := by
  simp [lowpass_calls, setup_calls]

theorem lowpass_calls_reprogram (v : Nat) :
    lowpass_calls (reprogram_calls v) = reprogram_calls v := by
  simp [lowpass_calls, reprogram_calls]

theorem programmed_hz_of_lt (filter_hz default_filter_hz : Nat) (h : filter_hz < 2 ^ 8) :
    programmed_hz filter_hz default_filter_hz =
      if filter_hz ≠ 0 then filter_hz else default_filter_hz := by
  unfold programmed_hz
  rw [Nat.mod_eq_of_lt h]
  by_cases h0 : filter_hz = 0 <;> simp [h0]

theorem update_body_filter_fields [Mul F] [Sub F] [NatCast F] [OfScientific F]
    (rotate : Rot → Vector3 F → Vector3 F) (s1 : State F Rot) :
    (update_body rotate s1).ioctl_log =
      (if s1._last_filter_hz ≠ s1._mpu6000_filter then
        s1.ioctl_log ++ reprogram_calls (programmed_hz s1._mpu6000_filter s1._default_filter_hz)
       else s1.ioctl_log) ∧
    (update_body rotate s1)._last_filter_hz = s1._mpu6000_filter := by
  simp only [update_body]
  exact update_filter_log _

theorem accumulate_divider (s : State F Rot) :
    (_accumulate s)._sample_divider = s._sample_divider := by
  cases h : s._in_accumulate
  · rw [accumulate_clear s h]
  · simp [_accumulate, h]

theorem update_body_divider [Mul F] [Sub F] [NatCast F] [OfScientific F]
    (rotate : Rot → Vector3 F → Vector3 F) (s : State F Rot) :
    (update_body rotate s)._sample_divider = s._sample_divider := by
  simp only [update_body, update_filter]
  split <;> rfl

theorem num_samples_available_isSome (s : State F Rot) (h : s._sample_divider ≠ 0) :
    (num_samples_available s).1.isSome = true := by
  simp [num_samples_available, accumulate_divider, h]

theorem fresh_of_nodup (q : List (Report F)) (t : Nat)
    (h : (t :: q.map (fun r => r.timestamp)).Nodup) : fresh t q = true := by
  induction q generalizing t with
  | nil => rfl
  | cons r rest ih =>
    simp only [List.map_cons, List.nodup_cons, List.mem_cons, not_or] at h
    simp only [fresh, Bool.and_eq_true, decide_eq_true_eq]
    refine ⟨fun e => h.1.1 e.symm, ih r.timestamp ?_⟩
    simp only [List.nodup_cons]
    exact ⟨h.2.1, h.2.2⟩

theorem drain_fresh_snoc (pre : List (Report F)) (r : Report F) (v : Vector3 F) (c t : Nat)
    (hf : fresh t (pre ++ [r]) = true) :
    drain (pre ++ [r]) v c t =
      (⟨r.x, r.y, r.z⟩, (c + (pre.length + 1)) % 2 ^ 32, r.timestamp, []) := by
  induction pre generalizing v c t with
  | nil =>
    simp only [List.nil_append, fresh, Bool.and_eq_true, decide_eq_true_eq] at hf
    simp [drain, hf.1]
  | cons p pre ih =>
    simp only [List.cons_append, fresh, Bool.and_eq_true, decide_eq_true_eq] at hf
    simp only [List.cons_append, drain, hf.1, ne_eq, not_false_eq_true, if_true]
    have e : ((c + 1) % 2 ^ 32 + (pre.length + 1)) % 2 ^ 32 =
        (c + ((p :: pre).length + 1)) % 2 ^ 32 := by
      simp only [List.length_cons]; omega
    have h2 := ih ⟨p.x, p.y, p.z⟩ ((c + 1) % 2 ^ 32) p.timestamp hf.2
    rw [e] at h2
    exact h2

theorem drain_append_dup (pre rest : List (Report F)) (r : Report F) (v : Vector3 F)
    (c t : Nat) (hf : fresh t pre = true)
    (hd : r.timestamp = (drain pre v c t).2.2.1) :
    drain (pre ++ r :: rest) v c t =
      ((drain pre v c t).1, (drain pre v c t).2.1, (drain pre v c t).2.2.1, rest) := by
  induction pre generalizing v c t with
  | nil =>
    simp only [drain] at hd
    simp [drain, hd]
  | cons p pre ih =>
    simp only [fresh, Bool.and_eq_true, decide_eq_true_eq] at hf
    simp only [drain, hf.1, ne_eq, not_false_eq_true, if_true] at hd
    simp only [List.cons_append, drain, hf.1, ne_eq, not_false_eq_true, if_true]
    exact ih _ _ _ hf.2 hd

theorem drain_count_ge (q : List (Report F)) (v : Vector3 F) (c t : Nat)
    (hc : c + q.length < 2 ^ 32) : c ≤ (drain q v c t).2.1 := by
  induction q generalizing v c t with
  | nil => simp [drain]
  | cons r rest ih =>
    simp only [List.length_cons] at hc
    by_cases h : r.timestamp = t
    · simp [drain, h]
    · simp only [drain, h, ne_eq, not_false_eq_true, if_true]
      have hlt : (c + 1) % 2 ^ 32 = c + 1 := Nat.mod_eq_of_lt (by omega)
      rw [hlt]
      have := ih ⟨r.x, r.y, r.z⟩ (c + 1) r.timestamp (by omega)
      omega

theorem drain_timestamp_ge (q : List (Report F)) (v : Vector3 F) (c t : Nat)
    (hi : increasing t q = true) : t ≤ (drain q v c t).2.2.1 := by
  induction q generalizing v c t with
  | nil => simp [drain]
  | cons r rest ih =>
    simp only [increasing, Bool.and_eq_true, decide_eq_true_eq] at hi
    by_cases h : r.timestamp = t
    · simp [drain, h]
    · simp only [drain, h, ne_eq, not_false_eq_true, if_true]
      have := ih ⟨r.x, r.y, r.z⟩ ((c + 1) % 2 ^ 32) r.timestamp hi.2
      omega

theorem accumulate_clear_accel (s : State F Rot) (h : s._in_accumulate = false) :
    (_accumulate s)._accel_in =
      (drain s.accel_dev s._accel_in s._accel_count s._last_accel_timestamp).1 ∧
    (_accumulate s)._accel_count =
      (drain s.accel_dev s._accel_in s._accel_count s._last_accel_timestamp).2.1 ∧
    (_accumulate s)._last_accel_timestamp =
      (drain s.accel_dev s._accel_in s._accel_count s._last_accel_timestamp).2.2.1 ∧
    (_accumulate s).accel_dev =
      (drain s.accel_dev s._accel_in s._accel_count s._last_accel_timestamp).2.2.2 := by
  rw [accumulate_clear s h]
  exact ⟨rfl, rfl, rfl, rfl⟩

theorem accumulate_clear_gyro (s : State F Rot) (h : s._in_accumulate = false) :
    (_accumulate s)._gyro_in =
      (drain s.gyro_dev s._gyro_in s._gyro_count s._last_gyro_timestamp).1 ∧
    (_accumulate s)._gyro_count =
      (drain s.gyro_dev s._gyro_in s._gyro_count s._last_gyro_timestamp).2.1 ∧
    (_accumulate s)._last_gyro_timestamp =
      (drain s.gyro_dev s._gyro_in s._gyro_count s._last_gyro_timestamp).2.2.1 ∧
    (_accumulate s).gyro_dev =
      (drain s.gyro_dev s._gyro_in s._gyro_count s._last_gyro_timestamp).2.2.2 := by
  rw [accumulate_clear s h]
  exact ⟨rfl, rfl, rfl, rfl⟩

theorem accumulate_idle (s : State F Rot) (hflag : s._in_accumulate = false)
    (ha : s.accel_dev = []) (hg : s.gyro_dev = []) : _accumulate s = s := by
  cases s
  simp only at hflag ha hg
  subst hflag ha hg
  simp [_accumulate, accel_loop, gyro_loop]

theorem init_post_counts ( CONFIG_ARCH_BOARD_PX4FMU_V1 : Bool)
    (open_accel open_gyro : Int) (sample_rate : Sample_rate) (s : State F Rot) :
    (init_post CONFIG_ARCH_BOARD_PX4FMU_V1 open_accel open_gyro sample_rate
        s)._accel_count = s._accel_count ∧
    (init_post CONFIG_ARCH_BOARD_PX4FMU_V1 open_accel open_gyro sample_rate
        s)._gyro_count = s._gyro_count := by
  have hi : ∀ (fd : Fd) (req : IoctlReq) (arg : Nat) (t : State F Rot),
      (ioctl fd req arg t)._accel_count = t._accel_count ∧
      (ioctl fd req arg t)._gyro_count = t._gyro_count := fun _ _ _ _ => ⟨rfl, rfl⟩
  have hs : ∀ (f : Nat) (t : State F Rot),
      (_set_filter_frequency f t)._accel_count = t._accel_count ∧
      (_set_filter_frequency f t)._gyro_count = t._gyro_count := fun _ _ => ⟨rfl, rfl⟩
  constructor
  · simp only [init_post, (hs _ _).1, (hi _ _ _ _).1]
  · simp only [init_post, (hs _ _).2, (hi _ _ _ _).2]

theorem accumulate_flag (s : State F Rot) :
    (_accumulate s)._in_accumulate = s._in_accumulate ∧
    (_accumulate s)._last_update_usec = s._last_update_usec := by
  cases h : s._in_accumulate
  · rw [accumulate_clear s h]; exact ⟨rfl, rfl⟩
  · have e : _accumulate s = s := by simp [_accumulate, h]
    rw [e]; exact ⟨h, rfl⟩

theorem update_body_delta [Mul F] [Sub F] [NatCast F] [OfScientific F]
    (rotate : Rot → Vector3 F → Vector3 F) (s : State F Rot) :
    get_delta_time (update_body rotate s) =
      (((s._last_gyro_timestamp + 2 ^ 64 - s._last_update_usec) % 2 ^ 64 : Nat) : F)
        * (1.0e-6 : F) ∧
    (update_body rotate s)._last_update_usec = s._last_gyro_timestamp := by
  constructor
  · simp only [get_delta_time, update_body, (update_filter_time _).1]; rfl
  · simp only [update_body, (update_filter_time _).2]; rfl

theorem update_body_counts [Mul F] [Sub F] [NatCast F] [OfScientific F]
    (rotate : Rot → Vector3 F → Vector3 F) (s : State F Rot) :
    (update_body rotate s)._accel_count = 0 ∧ (update_body rotate s)._gyro_count = 0 := by
  constructor
  · simp only [update_body, (update_filter_counts _).1]; rfl
  · simp only [update_body, (update_filter_counts _).2]; rfl

theorem usec_diff_sum [Mul F] [Sub F] [NatCast F] [OfScientific F]
    (rotate : Rot → Vector3 F → Vector3 F) (rest : List (State F Rot)) (s : State F Rot)
    (hc : consecutive rotate (s :: rest) = true)
    (hm : nondecreasing s._last_update_usec (s :: rest) = true) :
    ((s :: rest).map usec_diff).sum + s._last_update_usec =
      ((s :: rest).getLast (List.cons_ne_nil _ _))._last_gyro_timestamp := by
  induction rest generalizing s with
  | nil =>
    simp only [nondecreasing, Bool.and_eq_true, decide_eq_true_eq] at hm
    simp only [List.map_cons, List.map_nil, List.sum_cons, List.sum_nil, Nat.add_zero,
      List.getLast_singleton, usec_diff]
    rw [sub64_of_le _ _ hm.1.1 hm.1.2]
    omega
  | cons b rest ih =>
    simp only [consecutive, Bool.and_eq_true, decide_eq_true_eq] at hc
    rw [(update_body_delta rotate s).2] at hc
    have hm2 := hm
    simp only [nondecreasing, Bool.and_eq_true, decide_eq_true_eq] at hm2
    have hmb : nondecreasing b._last_update_usec (b :: rest) = true := by
      rw [hc.1]
      simp only [nondecreasing, Bool.and_eq_true, decide_eq_true_eq]
      exact hm2.2
    have h := ih b hc.2 hmb
    have hs : usec_diff s = s._last_gyro_timestamp - s._last_update_usec :=
      sub64_of_le _ _ hm2.1.1 hm2.1.2
    rw [List.getLast_cons (List.cons_ne_nil _ _)]
    rw [← h, hc.1]
    simp only [List.map_cons, List.sum_cons, hs]
    omega

end Lemmas

/-! ## Claims -/

section Claims

variable {F : Type} {Rot : Type}

/-- C1, counterexample: with divider 4 and both counts 0, eight accel and eight gyro
reports are queued, yet `num_samples_available` returns 1 and not 8 / 4 = 2: the accel
loop stops at the report that repeats the previous timestamp. -/
theorem c1_counterexample :
    c1_input._accel_count = 0 ∧ c1_input._gyro_count = 0 ∧
    c1_input._in_accumulate = false ∧ c1_input._sample_divider = 4 ∧
    c1_input.accel_dev.length = 8 ∧ c1_input.gyro_dev.length = 8 ∧
    (num_samples_available c1_input).1 = some 1 ∧
    (num_samples_available c1_input).1 ≠
      some (min c1_input.accel_dev.length c1_input.gyro_dev.length
        / c1_input._sample_divider) := by
  decide

/-- C1, amended: with the guard flag clear, both counts 0, a nonzero divider, and N accel
and M gyro reports queued (N, M below 2^32) in which every report carries a timestamp
different from the one recorded just before it is read, `num_samples_available` performs
one accumulation pass, which counts N and M and empties both queues, and returns
min(N, M) / divider whenever that fits the `uint16_t` return type. -/
theorem num_samples_available_fresh (s : State F Rot)
    (hflag : s._in_accumulate = false)
    (ha : s._accel_count = 0) (hg : s._gyro_count = 0)
    (hfa : fresh s._last_accel_timestamp s.accel_dev = true)
    (hfg : fresh s._last_gyro_timestamp s.gyro_dev = true)
    (hd : 0 < s._sample_divider)
    (hN : s.accel_dev.length < 2 ^ 32) (hM : s.gyro_dev.length < 2 ^ 32)
    (hr : min s.accel_dev.length s.gyro_dev.length / s._sample_divider < 2 ^ 16) :
    (num_samples_available s).2 = _accumulate s ∧
    (_accumulate s)._accel_count = s.accel_dev.length ∧
    (_accumulate s)._gyro_count = s.gyro_dev.length ∧
    (_accumulate s).accel_dev = [] ∧ (_accumulate s).gyro_dev = [] ∧
    (num_samples_available s).1 =
      some (min s.accel_dev.length s.gyro_dev.length / s._sample_divider) := by
  have hA := drain_count_fresh s.accel_dev s._accel_in s._accel_count s._last_accel_timestamp
    hfa (by omega)
  have hG := drain_count_fresh s.gyro_dev s._gyro_in s._gyro_count s._last_gyro_timestamp
    hfg (by omega)
  have hdiv : (_accumulate s)._sample_divider = s._sample_divider := by
    rw [accumulate_clear s hflag]
  have hca : (_accumulate s)._accel_count = s.accel_dev.length := by
    rw [accumulate_clear s hflag]; exact hA.1.trans (by omega)
  have hcg : (_accumulate s)._gyro_count = s.gyro_dev.length := by
    rw [accumulate_clear s hflag]; exact hG.1.trans (by omega)
  refine ⟨rfl, hca, hcg, ?_, ?_, ?_⟩
  · rw [accumulate_clear s hflag]; exact hA.2
  · rw [accumulate_clear s hflag]; exact hG.2
  · have hne : ¬ s._sample_divider = 0 := by omega
    simp only [num_samples_available, hdiv, hca, hcg, hne, if_false]
    rw [Nat.mod_eq_of_lt hr]

/-- C1, amended: the theorem applied to eight accel and eight gyro reports with
timestamps 1..8 and divider 4. -/
theorem num_samples_available_fresh_witness :
    (num_samples_available w_input).2 = _accumulate w_input ∧
    (_accumulate w_input)._accel_count = w_input.accel_dev.length ∧
    (_accumulate w_input)._gyro_count = w_input.gyro_dev.length ∧
    (_accumulate w_input).accel_dev = [] ∧ (_accumulate w_input).gyro_dev = [] ∧
    (num_samples_available w_input).1 =
      some (min w_input.accel_dev.length w_input.gyro_dev.length
        / w_input._sample_divider) :=
  num_samples_available_fresh w_input rfl rfl rfl (by decide) (by decide) (by decide)
    (by decide) (by decide) (by decide)

/-- C2: when the wait loop of `update` ends in the state `s1` (the state at snapshot
time), `update` returns `true` and the accel value it stores is, componentwise,
R(v) * scale - offset, where v is the raw accel vector held by the accumulator in `s1`
and R the rotation by the board orientation: rotation first, then the per-axis scale,
then the offset subtraction. -/
theorem update_accel_calibration [Mul F] [Sub F] [NatCast F] [OfScientific F]
    (rotate : Rot → Vector3 F → Vector3 F) (delay : State F Rot → State F Rot)
    (fuel : Nat) (s s1 : State F Rot) (hw : update_wait delay fuel s = some s1) :
    update rotate delay fuel s = some (true, update_body rotate s1) ∧
    (update_body rotate s1)._accel =
      ⟨(rotate s1._board_orientation s1._accel_in).x * s1._accel_scale.x - s1._accel_offset.x,
       (rotate s1._board_orientation s1._accel_in).y * s1._accel_scale.y - s1._accel_offset.y,
       (rotate s1._board_orientation s1._accel_in).z * s1._accel_scale.z
         - s1._accel_offset.z⟩ := by
  refine ⟨update_of_wait rotate delay fuel s s1 hw, ?_⟩
  simp only [update_body, update_filter_accel]
  rfl

/-- C2: the theorem applied with a quarter-turn rotation, scale (2, 3, 4) and offset
(1, 1, 1); the stored accel value is (-29, 20, 83). -/
theorem update_accel_calibration_witness :
    update_wait id 1 w_input = some (_accumulate w_input) ∧
    (update_body yaw90 (_accumulate w_input))._accel = ⟨-29, 20, 83⟩ ∧
    update yaw90 id 1 w_input = some (true, update_body yaw90 (_accumulate w_input)) ∧
    (update_body yaw90 (_accumulate w_input))._accel =
      ⟨(yaw90 (_accumulate w_input)._board_orientation (_accumulate w_input)._accel_in).x
          * (_accumulate w_input)._accel_scale.x - (_accumulate w_input)._accel_offset.x,
       (yaw90 (_accumulate w_input)._board_orientation (_accumulate w_input)._accel_in).y
          * (_accumulate w_input)._accel_scale.y - (_accumulate w_input)._accel_offset.y,
       (yaw90 (_accumulate w_input)._board_orientation (_accumulate w_input)._accel_in).z
          * (_accumulate w_input)._accel_scale.z - (_accumulate w_input)._accel_offset.z⟩ :=
  ⟨rfl, by simp only [update_body, update_filter_accel]; norm_num [update_calibrate, update_snapshot, _accumulate, accel_loop, gyro_loop, w_input, zeroState, ramp, mkReport, yaw90, Vector3.sub, List.range, List.range.loop],
    update_accel_calibration yaw90 id 1 w_input (_accumulate w_input) rfl⟩

/-- C3: when the wait loop of `update` ends in the state `s1`, whatever the two counts
are in `s1`, both counts are 0 right after the snapshot, and still 0 when `update`
returns. -/
theorem update_resets_counts [Mul F] [Sub F] [NatCast F] [OfScientific F]
    (rotate : Rot → Vector3 F → Vector3 F) (delay : State F Rot → State F Rot)
    (fuel : Nat) (s s1 : State F Rot) (hw : update_wait delay fuel s = some s1) :
    update rotate delay fuel s = some (true, update_body rotate s1) ∧
    (update_snapshot s1)._accel_count = 0 ∧ (update_snapshot s1)._gyro_count = 0 ∧
    (update_body rotate s1)._accel_count = 0 ∧ (update_body rotate s1)._gyro_count = 0 := by
  refine ⟨update_of_wait rotate delay fuel s s1 hw, rfl, rfl, ?_, ?_⟩
  · simp only [update_body, (update_filter_counts _).1]; rfl
  · simp only [update_body, (update_filter_counts _).2]; rfl

/-- C3: the theorem applied to a state whose counts are 8 and 8 at snapshot time. -/
theorem update_resets_counts_witness :
    update_wait id 1 w_input = some (_accumulate w_input) ∧
    (_accumulate w_input)._accel_count = 8 ∧ (_accumulate w_input)._gyro_count = 8 ∧
    update yaw90 id 1 w_input = some (true, update_body yaw90 (_accumulate w_input)) ∧
    (update_snapshot (_accumulate w_input))._accel_count = 0 ∧
    (update_snapshot (_accumulate w_input))._gyro_count = 0 ∧
    (update_body yaw90 (_accumulate w_input))._accel_count = 0 ∧
    (update_body yaw90 (_accumulate w_input))._gyro_count = 0 :=
  ⟨rfl, by decide, by decide,
    update_resets_counts yaw90 id 1 w_input (_accumulate w_input) rfl⟩

/-- C4: when the wait loop of `update` ends in a state `s1` whose last gyro timestamp g
(a `uint64_t`) is at least the previously consumed timestamp p, `update` returns `true`,
`get_delta_time` then gives (g - p) * 1e-6, the previous timestamp becomes g, and neither
value depends on the accel timestamp (replacing it by any `t` changes nothing). -/
theorem update_delta_time [Mul F] [Sub F] [NatCast F] [OfScientific F]
    (rotate : Rot → Vector3 F → Vector3 F) (delay : State F Rot → State F Rot)
    (fuel : Nat) (s s1 : State F Rot) (t : Nat)
    (hw : update_wait delay fuel s = some s1)
    (hpg : s1._last_update_usec ≤ s1._last_gyro_timestamp)
    (hg : s1._last_gyro_timestamp < 2 ^ 64) :
    update rotate delay fuel s = some (true, update_body rotate s1) ∧
    get_delta_time (update_body rotate s1) =
      ((s1._last_gyro_timestamp - s1._last_update_usec : Nat) : F) * (1.0e-6 : F) ∧
    (update_body rotate s1)._last_update_usec = s1._last_gyro_timestamp ∧
    get_delta_time (update_body rotate { s1 with _last_accel_timestamp := t }) =
      get_delta_time (update_body rotate s1) ∧
    (update_body rotate { s1 with _last_accel_timestamp := t })._last_update_usec =
      (update_body rotate s1)._last_update_usec := by
  refine ⟨update_of_wait rotate delay fuel s s1 hw, ?_, ?_, ?_, ?_⟩
  · simp only [get_delta_time, update_body, (update_filter_time _).1]
    show (((s1._last_gyro_timestamp + 2 ^ 64 - s1._last_update_usec) % 2 ^ 64 : Nat) : F)
      * (1.0e-6 : F) = _
    rw [sub64_of_le _ _ hpg hg]
  · simp only [update_body, (update_filter_time _).2]; rfl
  · simp only [get_delta_time, update_body, (update_filter_time _).1]; rfl
  · simp only [update_body, (update_filter_time _).2]; rfl

/-- C4: the theorem applied with g = 8 and p = 0 (and the accel timestamp replaced by 99);
the delta time is 8 * 1e-6 = 1/125000. -/
theorem update_delta_time_witness :
    update_wait id 1 w_input = some (_accumulate w_input) ∧
    (_accumulate w_input)._last_gyro_timestamp = 8 ∧
    (_accumulate w_input)._last_update_usec = 0 ∧
    ((8 - 0 : Nat) : ℚ) * (1.0e-6 : ℚ) = 1 / 125000 ∧
    update yaw90 id 1 w_input = some (true, update_body yaw90 (_accumulate w_input)) ∧
    get_delta_time (update_body yaw90 (_accumulate w_input)) =
      (((_accumulate w_input)._last_gyro_timestamp
        - (_accumulate w_input)._last_update_usec : Nat) : ℚ) * (1.0e-6 : ℚ) ∧
    (update_body yaw90 (_accumulate w_input))._last_update_usec =
      (_accumulate w_input)._last_gyro_timestamp ∧
    get_delta_time (update_body yaw90
        { _accumulate w_input with _last_accel_timestamp := 99 }) =
      get_delta_time (update_body yaw90 (_accumulate w_input)) ∧
    (update_body yaw90 { _accumulate w_input with _last_accel_timestamp := 99 })._last_update_usec
      = (update_body yaw90 (_accumulate w_input))._last_update_usec :=
  ⟨rfl, by decide, by decide, by norm_num,
    update_delta_time yaw90 id 1 w_input (_accumulate w_input) 99 rfl (by decide) (by decide)⟩

/-- C5, the code at the failing input: on the zero-initialised object with configured
cutoff 20, `_init_sensor` programs the filter once (value 20) but leaves the recorded
cutoff `_last_filter_hz` at 0; the first `update` with the cutoff still 20 therefore
programs the filter a second time; and if the cutoff is instead changed to 0 before
that first `update`, the `update` programs nothing although the effective cutoff (30)
differs from the programmed one (20). -/
theorem init_does_not_record_cutoff :
    c5_init.toOption.map
        (fun r => (r.2._mpu6000_filter, r.2._last_filter_hz, lowpass_calls r.2.ioctl_log)) =
      some (20, 0, reprogram_calls 20) ∧
    (c5_init.toOption.bind (fun r => update yaw90 id 1 r.2)).map
        (fun r => lowpass_calls r.2.ioctl_log) =
      some (reprogram_calls 20 ++ reprogram_calls 20) ∧
    (c5_init.toOption.bind
        (fun r => update yaw90 id 1 { r.2 with _mpu6000_filter := 0 })).map
        (fun r => (lowpass_calls r.2.ioctl_log, spec_effective_cutoff r.2)) =
      some (reprogram_calls 20, 30) := by
  decide

/-- C6, counterexample: with configured cutoff 0, default 30 and recorded (applied)
cutoff 30, the applied cutoff equals the effective cutoff, yet `update` reprograms the
filter (writing 30), and after the call the recorded cutoff is 0, not the effective
cutoff 30. -/
theorem c6_counterexample :
    c6_input._last_filter_hz = spec_effective_cutoff c6_input ∧
    (update yaw90 id 1 c6_input).map (fun r => r.2.ioctl_log) =
      some (c6_input.ioctl_log ++ reprogram_calls 30) ∧
    (update yaw90 id 1 c6_input).map
        (fun r => (r.2._last_filter_hz, spec_effective_cutoff r.2)) = some (0, 30) := by
  decide

/-- C6, amended: when the wait loop of `update` ends in the state `s1`, `update` returns
`true`; it reprograms the filter exactly when the recorded cutoff `_last_filter_hz`
differs from the configured cutoff itself (zero included); the value then written to
gyro and accel is the configured cutoff (as the `uint8_t` argument) if nonzero, else the
default; and after the call the recorded cutoff equals the configured cutoff. -/
theorem update_filter_rule [Mul F] [Sub F] [NatCast F] [OfScientific F]
    (rotate : Rot → Vector3 F → Vector3 F) (delay : State F Rot → State F Rot)
    (fuel : Nat) (s s1 : State F Rot) (hw : update_wait delay fuel s = some s1) :
    update rotate delay fuel s = some (true, update_body rotate s1) ∧
    (update_body rotate s1).ioctl_log =
      (if s1._last_filter_hz ≠ s1._mpu6000_filter then
        s1.ioctl_log ++ reprogram_calls (programmed_hz s1._mpu6000_filter s1._default_filter_hz)
       else s1.ioctl_log) ∧
    (update_body rotate s1)._last_filter_hz = s1._mpu6000_filter :=
  ⟨update_of_wait rotate delay fuel s s1 hw, update_body_filter_fields rotate s1⟩

/-- C6, amended: the theorem applied to a state with recorded cutoff 0 and configured
cutoff 20; the filter is reprogrammed with 20. -/
theorem update_filter_rule_witness :
    update_wait id 1 w_input = some (_accumulate w_input) ∧
    (update_body yaw90 (_accumulate w_input)).ioctl_log = reprogram_calls 20 ∧
    update yaw90 id 1 w_input = some (true, update_body yaw90 (_accumulate w_input)) ∧
    (update_body yaw90 (_accumulate w_input)).ioctl_log =
      (if (_accumulate w_input)._last_filter_hz ≠ (_accumulate w_input)._mpu6000_filter then
        (_accumulate w_input).ioctl_log ++
          reprogram_calls (programmed_hz (_accumulate w_input)._mpu6000_filter
            (_accumulate w_input)._default_filter_hz)
       else (_accumulate w_input).ioctl_log) ∧
    (update_body yaw90 (_accumulate w_input))._last_filter_hz =
      (_accumulate w_input)._mpu6000_filter :=
  ⟨rfl, by decide, update_filter_rule yaw90 id 1 w_input (_accumulate w_input) rfl⟩

/-- C7: for a configured cutoff in the range of the `uint8_t` filter argument, each filter
reprogram (the call `_set_filter_frequency(_mpu6000_filter)` made by `_init_sensor` and by
`update`) writes to the gyro and then to the accel source the configured cutoff if it is
nonzero and the default cutoff otherwise; a successful `_init_sensor` fixes the default
to 15 for the 50 Hz mode and to 30 for the 100 Hz mode, the 200 Hz mode and any other
mode, so the default does not increase from 200 Hz to 100 Hz to 50 Hz. -/
theorem filter_value_and_default ( CONFIG_ARCH_BOARD_PX4FMU_V1 : Bool)
    ( AP_PRODUCT_ID_PX4 : Nat) (open_accel open_gyro : Int) (s : State F Rot)
    (hf : s._mpu6000_filter < 2 ^ 8) (ha : 0 ≤ open_accel) (hg : 0 ≤ open_gyro) :
    (_set_filter_frequency s._mpu6000_filter s).ioctl_log =
      s.ioctl_log ++
        [⟨Fd.gyro, IoctlReq.GYROIOCSLOWPASS,
            if s._mpu6000_filter ≠ 0 then s._mpu6000_filter else s._default_filter_hz⟩,
         ⟨Fd.accel, IoctlReq.ACCELIOCSLOWPASS,
            if s._mpu6000_filter ≠ 0 then s._mpu6000_filter else s._default_filter_hz⟩] ∧
    (update_filter s).ioctl_log =
      (if s._last_filter_hz ≠ s._mpu6000_filter then
        s.ioctl_log ++ reprogram_calls (spec_effective_cutoff s)
       else s.ioctl_log) ∧
    (∀ sample_rate : Sample_rate,
      (_init_sensor CONFIG_ARCH_BOARD_PX4FMU_V1 AP_PRODUCT_ID_PX4 open_accel open_gyro
          sample_rate s).toOption.map (fun r => (r.2._default_filter_hz, r.2.ioctl_log)) =
        some ((rate_settings sample_rate).2,
          s.ioctl_log ++ setup_calls (driver_rate CONFIG_ARCH_BOARD_PX4FMU_V1) ++
            reprogram_calls (if s._mpu6000_filter ≠ 0 then s._mpu6000_filter
              else (rate_settings sample_rate).2))) ∧
    (rate_settings Sample_rate.RATE_50HZ).2 = 15 ∧
    (rate_settings Sample_rate.RATE_100HZ).2 = 30 ∧
    (rate_settings Sample_rate.RATE_200HZ).2 = 30 ∧
    (rate_settings Sample_rate.RATE_OTHER).2 = 30 ∧
    (rate_settings Sample_rate.RATE_50HZ).2 ≤ (rate_settings Sample_rate.RATE_100HZ).2 ∧
    (rate_settings Sample_rate.RATE_100HZ).2 ≤ (rate_settings Sample_rate.RATE_200HZ).2 := by
  refine ⟨?_, ?_, ?_, rfl, rfl, rfl, rfl, by decide, by decide⟩
  · rw [set_filter_frequency_log, programmed_hz_of_lt _ _ hf]; rfl
  · rw [(update_filter_log s).1, programmed_hz_of_lt _ _ hf]; rfl
  · intro sample_rate
    rw [init_sensor_ok _ _ _ _ _ _ ha hg]
    simp only [Except.toOption, Option.map_some']
    rw [(init_post_fields _ _ _ _ _).1, (init_post_fields _ _ _ _ _).2.2.2.2,
      programmed_hz_of_lt _ _ hf]

/-- C7: the theorem applied to the zero-initialised object with configured cutoff 20. -/
theorem filter_value_and_default_witness :
    c5_pre._mpu6000_filter < 2 ^ 8 ∧
    (_init_sensor false 4 3 4 Sample_rate.RATE_100HZ
      { c5_pre with _mpu6000_filter := 0 }).toOption.map
        (fun r => lowpass_calls r.2.ioctl_log) = some (reprogram_calls 30) ∧
    (_set_filter_frequency c5_pre._mpu6000_filter c5_pre).ioctl_log =
      c5_pre.ioctl_log ++
        [⟨Fd.gyro, IoctlReq.GYROIOCSLOWPASS,
            if c5_pre._mpu6000_filter ≠ 0 then c5_pre._mpu6000_filter
            else c5_pre._default_filter_hz⟩,
         ⟨Fd.accel, IoctlReq.ACCELIOCSLOWPASS,
            if c5_pre._mpu6000_filter ≠ 0 then c5_pre._mpu6000_filter
            else c5_pre._default_filter_hz⟩] :=
  ⟨by decide, by decide,
    (filter_value_and_default false 4 3 4 c5_pre (by decide) (by decide) (by decide)).1⟩

/-- C8, counterexample: `_init_sensor(RATE_100HZ)` with configured cutoff 20 computes the
default 30 for the mode but programs the filter with 20. -/
theorem c8_counterexample :
    c5_init.toOption.map (fun r => (r.2._default_filter_hz, lowpass_calls r.2.ioctl_log)) =
      some (30, reprogram_calls 20) ∧
    reprogram_calls 20 ≠ reprogram_calls 30 := by
  decide

/-- C8, amended: for every sample-rate mode and every configured cutoff, an `_init_sensor`
whose two `open` calls succeed returns the product id after issuing the six rate and
queue-depth `ioctl` calls and exactly one filter reprogram, whose value is the configured
cutoff (as the `uint8_t` argument) if that is nonzero and the default cutoff computed for
the mode otherwise. -/
theorem init_sensor_reprograms_once ( CONFIG_ARCH_BOARD_PX4FMU_V1 : Bool)
    ( AP_PRODUCT_ID_PX4 : Nat) (open_accel open_gyro : Int) (sample_rate : Sample_rate)
    (s : State F Rot) (ha : 0 ≤ open_accel) (hg : 0 ≤ open_gyro) :
    (_init_sensor CONFIG_ARCH_BOARD_PX4FMU_V1 AP_PRODUCT_ID_PX4 open_accel open_gyro
        sample_rate s).toOption.map
        (fun r => (r.1, r.2.ioctl_log, lowpass_calls r.2.ioctl_log)) =
      some (AP_PRODUCT_ID_PX4,
        s.ioctl_log ++ setup_calls (driver_rate CONFIG_ARCH_BOARD_PX4FMU_V1) ++
          reprogram_calls (programmed_hz s._mpu6000_filter (rate_settings sample_rate).2),
        lowpass_calls s.ioctl_log ++
          reprogram_calls (programmed_hz s._mpu6000_filter (rate_settings sample_rate).2)) ∧
    programmed_hz s._mpu6000_filter (rate_settings sample_rate).2 =
      (if s._mpu6000_filter % 2 ^ 8 = 0 then (rate_settings sample_rate).2
       else s._mpu6000_filter % 2 ^ 8) := by
  refine ⟨?_, rfl⟩
  rw [init_sensor_ok _ _ _ _ _ _ ha hg]
  simp only [Except.toOption, Option.map_some']
  rw [(init_post_fields _ _ _ _ _).2.2.2.2, lowpass_calls_append, lowpass_calls_append,
    lowpass_calls_setup, lowpass_calls_reprogram, List.append_nil]

/-- C8, amended: the theorem applied to the 100 Hz mode with configured cutoff 0 on the
800 Hz driver; the single reprogram writes the default 30. -/
theorem init_sensor_reprograms_once_witness :
    programmed_hz (zeroState 0 [] [])._mpu6000_filter
      (rate_settings Sample_rate.RATE_100HZ).2 = 30 ∧
    (_init_sensor false 4 3 4 Sample_rate.RATE_100HZ (zeroState 0 [] [])).toOption.map
        (fun r => (r.1, r.2.ioctl_log, lowpass_calls r.2.ioctl_log)) =
      some (4,
        (zeroState 0 [] []).ioctl_log ++ setup_calls (driver_rate false) ++
          reprogram_calls (programmed_hz (zeroState 0 [] [])._mpu6000_filter
            (rate_settings Sample_rate.RATE_100HZ).2),
        lowpass_calls (zeroState 0 [] []).ioctl_log ++
          reprogram_calls (programmed_hz (zeroState 0 [] [])._mpu6000_filter
            (rate_settings Sample_rate.RATE_100HZ).2)) :=
  ⟨by decide,
    (init_sensor_reprograms_once false 4 3 4 Sample_rate.RATE_100HZ (zeroState 0 [] [])
      (by decide) (by decide)).1⟩

/-- C9, counterexample: after an `update` that captured the gyro timestamp
2^32 + 4 = 4294967300, `get_last_sample_time_micros` returns 4. -/
theorem c9_counterexample :
    (update yaw90 id 1 c9_input).map
        (fun r => (r.2._last_update_usec, get_last_sample_time_micros r.2)) =
      some (4294967300, 4) ∧
    (4 : Nat) ≠ 4294967300 := by
  decide

/-- C9, amended: when the wait loop of `update` ends in a state whose last gyro timestamp
is g, `update` returns `true` and records g, and `get_last_sample_time_micros` then
returns g reduced modulo 2^32 (its return type is `uint32_t`), which is g itself exactly
when g is below 2^32. -/
theorem last_sample_time_micros_mod [Mul F] [Sub F] [NatCast F] [OfScientific F]
    (rotate : Rot → Vector3 F → Vector3 F) (delay : State F Rot → State F Rot)
    (fuel : Nat) (s s1 : State F Rot) (hw : update_wait delay fuel s = some s1) :
    update rotate delay fuel s = some (true, update_body rotate s1) ∧
    (update_body rotate s1)._last_update_usec = s1._last_gyro_timestamp ∧
    get_last_sample_time_micros (update_body rotate s1) = s1._last_gyro_timestamp % 2 ^ 32 ∧
    (get_last_sample_time_micros (update_body rotate s1) = s1._last_gyro_timestamp ↔
      s1._last_gyro_timestamp < 2 ^ 32) := by
  have hu : (update_body rotate s1)._last_update_usec = s1._last_gyro_timestamp := by
    simp only [update_body, (update_filter_time _).2]; rfl
  have hm : get_last_sample_time_micros (update_body rotate s1) =
      s1._last_gyro_timestamp % 2 ^ 32 := by
    simp only [get_last_sample_time_micros, hu]
  refine ⟨update_of_wait rotate delay fuel s s1 hw, hu, hm, ?_⟩
  rw [hm]
  constructor
  · intro h; omega
  · intro h; exact Nat.mod_eq_of_lt h

/-- C9, amended: the theorem applied to a state whose last gyro timestamp is 8. -/
theorem last_sample_time_micros_mod_witness :
    update_wait id 1 w_input = some (_accumulate w_input) ∧
    (_accumulate w_input)._last_gyro_timestamp = 8 ∧
    update yaw90 id 1 w_input = some (true, update_body yaw90 (_accumulate w_input)) ∧
    (update_body yaw90 (_accumulate w_input))._last_update_usec =
      (_accumulate w_input)._last_gyro_timestamp ∧
    get_last_sample_time_micros (update_body yaw90 (_accumulate w_input)) =
      (_accumulate w_input)._last_gyro_timestamp % 2 ^ 32 ∧
    (get_last_sample_time_micros (update_body yaw90 (_accumulate w_input)) =
        (_accumulate w_input)._last_gyro_timestamp ↔
      (_accumulate w_input)._last_gyro_timestamp < 2 ^ 32) :=
  ⟨rfl, by decide,
    last_sample_time_micros_mod yaw90 id 1 w_input (_accumulate w_input) rfl⟩

/-- C10: in every state whose in-accumulate flag is set, whatever the two device queues
hold, `_accumulate` returns the state unchanged: no report is read (both queues are
intact) and the latest vectors, counts, last timestamps and the flag keep their values. -/
theorem accumulate_reentrant (s : State F Rot) (h : s._in_accumulate = true) :
    _accumulate s = s ∧
    (_accumulate s).accel_dev = s.accel_dev ∧ (_accumulate s).gyro_dev = s.gyro_dev ∧
    (_accumulate s)._accel_in = s._accel_in ∧ (_accumulate s)._gyro_in = s._gyro_in ∧
    (_accumulate s)._accel_count = s._accel_count ∧
    (_accumulate s)._gyro_count = s._gyro_count ∧
    (_accumulate s)._last_accel_timestamp = s._last_accel_timestamp ∧
    (_accumulate s)._last_gyro_timestamp = s._last_gyro_timestamp ∧
    (_accumulate s)._in_accumulate = true := by
  have e : _accumulate s = s := by simp [_accumulate, h]
  rw [e]
  exact ⟨rfl, rfl, rfl, rfl, rfl, rfl, rfl, rfl, rfl, h⟩

/-- C10: the theorem applied to a state with the flag set and eight reports queued on
each source. -/
theorem accumulate_reentrant_witness :
    c10_input._in_accumulate = true ∧ c10_input.accel_dev.length = 8 ∧
    c10_input.gyro_dev.length = 8 ∧
    _accumulate c10_input = c10_input :=
  ⟨rfl, by decide, by decide, (accumulate_reentrant c10_input rfl).1⟩

/-- C12: for every sample-rate mode and both driver rates (1000 Hz with
`CONFIG_ARCH_BOARD_PX4FMU_V1`, 800 Hz without), an `_init_sensor` whose `open` calls
succeed sets the divider to (driver_rate * msec_per_sample) / 1000 with msec_per_sample
20, 10, 5 or 5 for the 50 Hz, 100 Hz, 200 Hz and any other mode; the product stays below
2^32, the divider is at least 1, and so `num_samples_available` has a defined result
after init, also after later accumulation passes and `update` bodies, which keep the
divider. -/
theorem init_sensor_divider [Mul F] [Sub F] [NatCast F] [OfScientific F]
    ( CONFIG_ARCH_BOARD_PX4FMU_V1 : Bool) ( AP_PRODUCT_ID_PX4 : Nat)
    (open_accel open_gyro : Int) (sample_rate : Sample_rate) (s : State F Rot)
    (rotate : Rot → Vector3 F → Vector3 F)
    (ha : 0 ≤ open_accel) (hg : 0 ≤ open_gyro) :
    (_init_sensor CONFIG_ARCH_BOARD_PX4FMU_V1 AP_PRODUCT_ID_PX4 open_accel open_gyro
        sample_rate s).toOption.map
        (fun r => (r.2._sample_divider, (num_samples_available r.2).1.isSome,
          (_accumulate r.2)._sample_divider, (update_body rotate r.2)._sample_divider)) =
      some (driver_rate CONFIG_ARCH_BOARD_PX4FMU_V1 * (rate_settings sample_rate).1 / 1000,
        true,
        driver_rate CONFIG_ARCH_BOARD_PX4FMU_V1 * (rate_settings sample_rate).1 / 1000,
        driver_rate CONFIG_ARCH_BOARD_PX4FMU_V1 * (rate_settings sample_rate).1 / 1000) ∧
    (driver_rate CONFIG_ARCH_BOARD_PX4FMU_V1 = 1000 ∨
      driver_rate CONFIG_ARCH_BOARD_PX4FMU_V1 = 800) ∧
    (rate_settings Sample_rate.RATE_50HZ).1 = 20 ∧
    (rate_settings Sample_rate.RATE_100HZ).1 = 10 ∧
    (rate_settings Sample_rate.RATE_200HZ).1 = 5 ∧
    (rate_settings Sample_rate.RATE_OTHER).1 = 5 ∧
    driver_rate CONFIG_ARCH_BOARD_PX4FMU_V1 * (rate_settings sample_rate).1 < 2 ^ 32 ∧
    1 ≤ driver_rate CONFIG_ARCH_BOARD_PX4FMU_V1 * (rate_settings sample_rate).1 / 1000 := by
  have hlt : driver_rate CONFIG_ARCH_BOARD_PX4FMU_V1 * (rate_settings sample_rate).1
      < 2 ^ 32 := by
    cases CONFIG_ARCH_BOARD_PX4FMU_V1 <;> cases sample_rate <;> decide
  have hge : 1 ≤ driver_rate CONFIG_ARCH_BOARD_PX4FMU_V1 * (rate_settings sample_rate).1
      / 1000 := by
    cases CONFIG_ARCH_BOARD_PX4FMU_V1 <;> cases sample_rate <;> decide
  have hdiv := (init_post_fields CONFIG_ARCH_BOARD_PX4FMU_V1 open_accel open_gyro
    sample_rate s).2.2.2.1
  rw [Nat.mod_eq_of_lt hlt] at hdiv
  refine ⟨?_, ?_, rfl, rfl, rfl, rfl, hlt, hge⟩
  · rw [init_sensor_ok _ _ _ _ _ _ ha hg]
    simp only [Except.toOption, Option.map_some']
    rw [accumulate_divider, update_body_divider, hdiv,
      num_samples_available_isSome _ (by rw [hdiv]; omega)]
  · cases CONFIG_ARCH_BOARD_PX4FMU_V1
    · exact Or.inr rfl
    · exact Or.inl rfl

/-- C12: the theorem applied to the 200 Hz mode on the 800 Hz driver; the divider is 4. -/
theorem init_sensor_divider_witness :
    driver_rate false * (rate_settings Sample_rate.RATE_200HZ).1 / 1000 = 4 ∧
    (_init_sensor false 4 3 4 Sample_rate.RATE_200HZ c5_pre).toOption.map
        (fun r => (r.2._sample_divider, (num_samples_available r.2).1.isSome,
          (_accumulate r.2)._sample_divider, (update_body yaw90 r.2)._sample_divider)) =
      some (driver_rate false * (rate_settings Sample_rate.RATE_200HZ).1 / 1000,
        true,
        driver_rate false * (rate_settings Sample_rate.RATE_200HZ).1 / 1000,
        driver_rate false * (rate_settings Sample_rate.RATE_200HZ).1 / 1000) :=
  ⟨by decide,
    (init_sensor_divider false 4 3 4 Sample_rate.RATE_200HZ c5_pre yaw90
      (by decide) (by decide)).1⟩

/-- C15: when the wait loop of `update` ends in the state `s1`, `update` returns `true`
and the gyro value it stores is, componentwise, R(v) - offset, where v is the raw gyro
vector held by the accumulator in `s1` and R the rotation by the board orientation: no
scale is applied, and replacing the accel vector, the accel scale and the accel offset
by any other values leaves the stored gyro value unchanged. -/
theorem update_gyro_calibration [Mul F] [Sub F] [NatCast F] [OfScientific F]
    (rotate : Rot → Vector3 F → Vector3 F) (delay : State F Rot → State F Rot)
    (fuel : Nat) (s s1 : State F Rot) (v sc off : Vector3 F)
    (hw : update_wait delay fuel s = some s1) :
    update rotate delay fuel s = some (true, update_body rotate s1) ∧
    (update_body rotate s1)._gyro =
      ⟨(rotate s1._board_orientation s1._gyro_in).x - s1._gyro_offset.x,
       (rotate s1._board_orientation s1._gyro_in).y - s1._gyro_offset.y,
       (rotate s1._board_orientation s1._gyro_in).z - s1._gyro_offset.z⟩ ∧
    (update_body rotate
        { s1 with _accel_in := v, _accel_scale := sc, _accel_offset := off })._gyro =
      (update_body rotate s1)._gyro := by
  refine ⟨update_of_wait rotate delay fuel s s1 hw, ?_, ?_⟩
  · simp only [update_body, update_filter_gyro]
    rfl
  · simp only [update_body, update_filter_gyro]
    rfl

/-- C15: the theorem applied with a quarter-turn rotation, raw gyro vector (7, 14, 21) and
gyro offset (1, 2, 3); the stored gyro value is (-15, 5, 18). -/
theorem update_gyro_calibration_witness :
    update_wait id 1 w_input = some (_accumulate w_input) ∧
    (update_body yaw90 (_accumulate w_input))._gyro = ⟨-15, 5, 18⟩ ∧
    update yaw90 id 1 w_input = some (true, update_body yaw90 (_accumulate w_input)) ∧
    (update_body yaw90 (_accumulate w_input))._gyro =
      ⟨(yaw90 (_accumulate w_input)._board_orientation (_accumulate w_input)._gyro_in).x
          - (_accumulate w_input)._gyro_offset.x,
       (yaw90 (_accumulate w_input)._board_orientation (_accumulate w_input)._gyro_in).y
          - (_accumulate w_input)._gyro_offset.y,
       (yaw90 (_accumulate w_input)._board_orientation (_accumulate w_input)._gyro_in).z
          - (_accumulate w_input)._gyro_offset.z⟩ ∧
    (update_body yaw90
        { _accumulate w_input with
          _accel_in := ⟨9, 9, 9⟩, _accel_scale := ⟨5, 6, 7⟩,
          _accel_offset := ⟨8, 8, 8⟩ })._gyro =
      (update_body yaw90 (_accumulate w_input))._gyro :=
  ⟨rfl, by simp only [update_body, update_filter_gyro]; norm_num [update_calibrate, update_snapshot, _accumulate, accel_loop, gyro_loop, w_input, zeroState, ramp, mkReport, yaw90, Vector3.sub, List.range, List.range.loop],
    update_gyro_calibration yaw90 id 1 w_input (_accumulate w_input) ⟨9, 9, 9⟩ ⟨5, 6, 7⟩
      ⟨8, 8, 8⟩ rfl⟩

/-- C16, counterexample: with the guard flag clear, gyro count 2^32 - 1 and one queued
gyro report carrying a new timestamp (k = 1), the pass leaves the count at 0: the
`uint32_t` counter wraps instead of growing by 1. -/
theorem c16_counterexample :
    c16_input._in_accumulate = false ∧
    fresh c16_input._last_gyro_timestamp c16_input.gyro_dev = true ∧
    c16_input.gyro_dev.length = 1 ∧ c16_input._gyro_count = 4294967295 ∧
    (_accumulate c16_input)._gyro_count = 0 ∧
    (_accumulate c16_input)._gyro_count ≠ c16_input._gyro_count + 1 := by
  decide

/-- C16, amended: with the guard flag clear, for each source whose queue is a non-empty
list of k reports ending in `r`, each carrying a timestamp different from the one
recorded just before it is read, one accumulation pass leaves the latest vector equal to
the vector of `r`, the last timestamp equal to the timestamp of `r`, and the count equal
to (prior + k) modulo 2^32, which is prior + k whenever that is below 2^32; a source with
an empty queue keeps its vector, timestamp and count. -/
theorem accumulate_step (s : State F Rot) (hflag : s._in_accumulate = false) :
    (∀ (pre : List (Report F)) (r : Report F), s.accel_dev = pre ++ [r] →
      fresh s._last_accel_timestamp s.accel_dev = true →
        (_accumulate s)._accel_in = ⟨r.x, r.y, r.z⟩ ∧
        (_accumulate s)._last_accel_timestamp = r.timestamp ∧
        (_accumulate s)._accel_count = (s._accel_count + s.accel_dev.length) % 2 ^ 32 ∧
        (s._accel_count + s.accel_dev.length < 2 ^ 32 →
          (_accumulate s)._accel_count = s._accel_count + s.accel_dev.length)) ∧
    (∀ (pre : List (Report F)) (r : Report F), s.gyro_dev = pre ++ [r] →
      fresh s._last_gyro_timestamp s.gyro_dev = true →
        (_accumulate s)._gyro_in = ⟨r.x, r.y, r.z⟩ ∧
        (_accumulate s)._last_gyro_timestamp = r.timestamp ∧
        (_accumulate s)._gyro_count = (s._gyro_count + s.gyro_dev.length) % 2 ^ 32 ∧
        (s._gyro_count + s.gyro_dev.length < 2 ^ 32 →
          (_accumulate s)._gyro_count = s._gyro_count + s.gyro_dev.length)) ∧
    (s.accel_dev = [] →
      (_accumulate s)._accel_in = s._accel_in ∧
      (_accumulate s)._last_accel_timestamp = s._last_accel_timestamp ∧
      (_accumulate s)._accel_count = s._accel_count) ∧
    (s.gyro_dev = [] →
      (_accumulate s)._gyro_in = s._gyro_in ∧
      (_accumulate s)._last_gyro_timestamp = s._last_gyro_timestamp ∧
      (_accumulate s)._gyro_count = s._gyro_count) := by
  rw [accumulate_clear s hflag]
  refine ⟨?_, ?_, ?_, ?_⟩
  · intro pre r hq hf
    have hlen : s.accel_dev.length = pre.length + 1 := by rw [hq]; simp
    have hd : drain s.accel_dev s._accel_in s._accel_count s._last_accel_timestamp =
        (⟨r.x, r.y, r.z⟩, (s._accel_count + s.accel_dev.length) % 2 ^ 32, r.timestamp, []) := by
      rw [hlen]
      rw [hq] at hf ⊢
      exact drain_fresh_snoc pre r s._accel_in s._accel_count s._last_accel_timestamp hf
    have hc := congrArg (fun p => p.2.1) hd
    exact ⟨congrArg (fun p => p.1) hd, congrArg (fun p => p.2.2.1) hd, hc,
      fun h => hc.trans (Nat.mod_eq_of_lt h)⟩
  · intro pre r hq hf
    have hlen : s.gyro_dev.length = pre.length + 1 := by rw [hq]; simp
    have hd : drain s.gyro_dev s._gyro_in s._gyro_count s._last_gyro_timestamp =
        (⟨r.x, r.y, r.z⟩, (s._gyro_count + s.gyro_dev.length) % 2 ^ 32, r.timestamp, []) := by
      rw [hlen]
      rw [hq] at hf ⊢
      exact drain_fresh_snoc pre r s._gyro_in s._gyro_count s._last_gyro_timestamp hf
    have hc := congrArg (fun p => p.2.1) hd
    exact ⟨congrArg (fun p => p.1) hd, congrArg (fun p => p.2.2.1) hd, hc,
      fun h => hc.trans (Nat.mod_eq_of_lt h)⟩
  · intro hq
    have hd : drain s.accel_dev s._accel_in s._accel_count s._last_accel_timestamp =
        (s._accel_in, s._accel_count, s._last_accel_timestamp, []) := by rw [hq]; rfl
    exact ⟨congrArg (fun p => p.1) hd, congrArg (fun p => p.2.2.1) hd,
      congrArg (fun p => p.2.1) hd⟩
  · intro hq
    have hd : drain s.gyro_dev s._gyro_in s._gyro_count s._last_gyro_timestamp =
        (s._gyro_in, s._gyro_count, s._last_gyro_timestamp, []) := by rw [hq]; rfl
    exact ⟨congrArg (fun p => p.1) hd, congrArg (fun p => p.2.2.1) hd,
      congrArg (fun p => p.2.1) hd⟩

/-- C16, amended: the theorem applied to eight accel reports with timestamps 1..8, the
last one carrying the vector (7, 14, 21), on a state with count 0. -/
theorem accumulate_step_witness :
    w_input._in_accumulate = false ∧
    w_input.accel_dev = ramp 0 7 ++ [mkReport 8 7 14 21] ∧
    fresh w_input._last_accel_timestamp w_input.accel_dev = true ∧
    (_accumulate w_input)._accel_in = ⟨7, 14, 21⟩ ∧
    (_accumulate w_input)._last_accel_timestamp = 8 ∧
    (_accumulate w_input)._accel_count =
      (w_input._accel_count + w_input.accel_dev.length) % 2 ^ 32 ∧
    (w_input._accel_count + w_input.accel_dev.length < 2 ^ 32 →
      (_accumulate w_input)._accel_count = w_input._accel_count + w_input.accel_dev.length) :=
  ⟨rfl, by norm_num [w_input, zeroState, ramp, mkReport, List.range, List.range.loop],
    by decide,
    (accumulate_step w_input rfl).1 (ramp 0 7) (mkReport 8 7 14 21)
      (by norm_num [w_input, zeroState, ramp, mkReport, List.range, List.range.loop])
      (by decide)⟩

/-- C17: with the guard flag clear, for each source whose queue is `pre ++ r :: rest`,
where the reports of `pre` all carry new timestamps and `r` carries the timestamp
recorded once `pre` has been read (the recorded last timestamp itself when `pre` is
empty), the pass stops at `r`: `r` is consumed, the queue that remains is exactly `rest`
(whatever its timestamps), and the latest vector, count and last timestamp are those
reached after reading `pre` alone, so `r` is not counted. -/
theorem accumulate_duplicate_cutoff (s : State F Rot) (hflag : s._in_accumulate = false) :
    (∀ (pre rest : List (Report F)) (r : Report F), s.accel_dev = pre ++ r :: rest →
      fresh s._last_accel_timestamp pre = true →
      r.timestamp = (_accumulate { s with accel_dev := pre })._last_accel_timestamp →
        (_accumulate s).accel_dev = rest ∧
        (_accumulate s)._accel_in = (_accumulate { s with accel_dev := pre })._accel_in ∧
        (_accumulate s)._accel_count =
          (_accumulate { s with accel_dev := pre })._accel_count ∧
        (_accumulate s)._last_accel_timestamp =
          (_accumulate { s with accel_dev := pre })._last_accel_timestamp) ∧
    (∀ (pre rest : List (Report F)) (r : Report F), s.gyro_dev = pre ++ r :: rest →
      fresh s._last_gyro_timestamp pre = true →
      r.timestamp = (_accumulate { s with gyro_dev := pre })._last_gyro_timestamp →
        (_accumulate s).gyro_dev = rest ∧
        (_accumulate s)._gyro_in = (_accumulate { s with gyro_dev := pre })._gyro_in ∧
        (_accumulate s)._gyro_count = (_accumulate { s with gyro_dev := pre })._gyro_count ∧
        (_accumulate s)._last_gyro_timestamp =
          (_accumulate { s with gyro_dev := pre })._last_gyro_timestamp) ∧
    (∀ (rest : List (Report F)) (r : Report F), s.accel_dev = r :: rest →
      r.timestamp = s._last_accel_timestamp →
        (_accumulate s).accel_dev = rest ∧ (_accumulate s)._accel_in = s._accel_in ∧
        (_accumulate s)._accel_count = s._accel_count ∧
        (_accumulate s)._last_accel_timestamp = s._last_accel_timestamp) ∧
    (∀ (rest : List (Report F)) (r : Report F), s.gyro_dev = r :: rest →
      r.timestamp = s._last_gyro_timestamp →
        (_accumulate s).gyro_dev = rest ∧ (_accumulate s)._gyro_in = s._gyro_in ∧
        (_accumulate s)._gyro_count = s._gyro_count ∧
        (_accumulate s)._last_gyro_timestamp = s._last_gyro_timestamp) := by
  refine ⟨?_, ?_, ?_, ?_⟩
  · intro pre rest r hq hf hd
    have hA := accumulate_clear_accel s hflag
    have hP := accumulate_clear_accel { s with accel_dev := pre } hflag
    have hd2 : r.timestamp = (drain pre s._accel_in s._accel_count s._last_accel_timestamp).2.2.1 :=
      hd.trans hP.2.2.1
    have h : drain s.accel_dev s._accel_in s._accel_count s._last_accel_timestamp =
        ((drain pre s._accel_in s._accel_count s._last_accel_timestamp).1,
         (drain pre s._accel_in s._accel_count s._last_accel_timestamp).2.1,
         (drain pre s._accel_in s._accel_count s._last_accel_timestamp).2.2.1, rest) := by
      rw [hq]
      exact drain_append_dup pre rest r s._accel_in s._accel_count s._last_accel_timestamp hf hd2
    exact ⟨hA.2.2.2.trans (congrArg (fun p => p.2.2.2) h),
      (hA.1.trans (congrArg (fun p => p.1) h)).trans hP.1.symm,
      (hA.2.1.trans (congrArg (fun p => p.2.1) h)).trans hP.2.1.symm,
      (hA.2.2.1.trans (congrArg (fun p => p.2.2.1) h)).trans hP.2.2.1.symm⟩
  · intro pre rest r hq hf hd
    have hA := accumulate_clear_gyro s hflag
    have hP := accumulate_clear_gyro { s with gyro_dev := pre } hflag
    have hd2 : r.timestamp = (drain pre s._gyro_in s._gyro_count s._last_gyro_timestamp).2.2.1 :=
      hd.trans hP.2.2.1
    have h : drain s.gyro_dev s._gyro_in s._gyro_count s._last_gyro_timestamp =
        ((drain pre s._gyro_in s._gyro_count s._last_gyro_timestamp).1,
         (drain pre s._gyro_in s._gyro_count s._last_gyro_timestamp).2.1,
         (drain pre s._gyro_in s._gyro_count s._last_gyro_timestamp).2.2.1, rest) := by
      rw [hq]
      exact drain_append_dup pre rest r s._gyro_in s._gyro_count s._last_gyro_timestamp hf hd2
    exact ⟨hA.2.2.2.trans (congrArg (fun p => p.2.2.2) h),
      (hA.1.trans (congrArg (fun p => p.1) h)).trans hP.1.symm,
      (hA.2.1.trans (congrArg (fun p => p.2.1) h)).trans hP.2.1.symm,
      (hA.2.2.1.trans (congrArg (fun p => p.2.2.1) h)).trans hP.2.2.1.symm⟩
  · intro rest r hq hd
    rw [accumulate_clear s hflag]
    have h : drain s.accel_dev s._accel_in s._accel_count s._last_accel_timestamp =
        (s._accel_in, s._accel_count, s._last_accel_timestamp, rest) := by
      rw [hq]; simp [drain, hd]
    exact ⟨congrArg (fun p => p.2.2.2) h, congrArg (fun p => p.1) h,
      congrArg (fun p => p.2.1) h, congrArg (fun p => p.2.2.1) h⟩
  · intro rest r hq hd
    rw [accumulate_clear s hflag]
    have h : drain s.gyro_dev s._gyro_in s._gyro_count s._last_gyro_timestamp =
        (s._gyro_in, s._gyro_count, s._last_gyro_timestamp, rest) := by
      rw [hq]; simp [drain, hd]
    exact ⟨congrArg (fun p => p.2.2.2) h, congrArg (fun p => p.1) h,
      congrArg (fun p => p.2.1) h, congrArg (fun p => p.2.2.1) h⟩

/-- C17: the theorem applied to accel reports with timestamps 1, 2, 2, 9 (the third
repeats the second: it is consumed, the fourth stays queued, the count is 2) and to
gyro reports with timestamps 0, 7 on recorded timestamp 0 (the first is consumed and
not counted, the second stays queued). -/
theorem accumulate_duplicate_cutoff_witness :
    c17_input._in_accumulate = false ∧
    ((_accumulate c17_input).accel_dev = [mkReport 9 4 4 4] ∧
      (_accumulate c17_input)._accel_in =
        (_accumulate { c17_input with
          accel_dev := [mkReport 1 1 1 1, mkReport 2 2 2 2] })._accel_in ∧
      (_accumulate c17_input)._accel_count =
        (_accumulate { c17_input with
          accel_dev := [mkReport 1 1 1 1, mkReport 2 2 2 2] })._accel_count ∧
      (_accumulate c17_input)._last_accel_timestamp =
        (_accumulate { c17_input with
          accel_dev := [mkReport 1 1 1 1, mkReport 2 2 2 2] })._last_accel_timestamp) ∧
    (_accumulate c17_input)._accel_count = 2 ∧
    ((_accumulate c17_input).gyro_dev = [mkReport 7 6 6 6] ∧
      (_accumulate c17_input)._gyro_in = c17_input._gyro_in ∧
      (_accumulate c17_input)._gyro_count = c17_input._gyro_count ∧
      (_accumulate c17_input)._last_gyro_timestamp = c17_input._last_gyro_timestamp) :=
  ⟨rfl,
    (accumulate_duplicate_cutoff c17_input rfl).1 [mkReport 1 1 1 1, mkReport 2 2 2 2]
      [mkReport 9 4 4 4] (mkReport 2 3 3 3) rfl (by decide) (by decide),
    by decide,
    (accumulate_duplicate_cutoff c17_input rfl).2.2.2 [mkReport 7 6 6 6] (mkReport 0 5 5 5)
      rfl (by decide)⟩

/-- C13, counterexample: with accel count 2^32 - 1 and one queued accel report whose
timestamp (1) is above the recorded one (0), one accumulation pass leaves the accel
count at 0, below its prior value: the `uint32_t` counter wraps. -/
theorem c13_counterexample :
    increasing c13_input._last_accel_timestamp c13_input.accel_dev = true ∧
    increasing c13_input._last_gyro_timestamp c13_input.gyro_dev = true ∧
    c13_input._accel_count = 4294967295 ∧
    (_accumulate c13_input)._accel_count = 0 ∧
    ¬ (c13_input._accel_count ≤ (_accumulate c13_input)._accel_count) := by
  decide

/-- C13, amended: for every state in which neither count can wrap during the pass (prior
count plus queue length below 2^32) and the queued timestamps of each source never go
back from the recorded last timestamp, one accumulation pass leaves each count and each
last timestamp at least at its prior value; `_set_filter_frequency`, the calibration and
the filter check of `update` and `_init_sensor` keep both counts, and the snapshot of
`update` sets both to 0. -/
theorem accumulate_monotone [Mul F] [Sub F] [NatCast F] [OfScientific F]
    (rotate : Rot → Vector3 F → Vector3 F) (scale : Vector3 F) (f : Nat)
    ( CONFIG_ARCH_BOARD_PX4FMU_V1 : Bool) ( AP_PRODUCT_ID_PX4 : Nat)
    (open_accel open_gyro : Int) (sample_rate : Sample_rate) (s : State F Rot)
    (hia : increasing s._last_accel_timestamp s.accel_dev = true)
    (hig : increasing s._last_gyro_timestamp s.gyro_dev = true)
    (hca : s._accel_count + s.accel_dev.length < 2 ^ 32)
    (hcg : s._gyro_count + s.gyro_dev.length < 2 ^ 32)
    (ha : 0 ≤ open_accel) (hg : 0 ≤ open_gyro) :
    s._accel_count ≤ (_accumulate s)._accel_count ∧
    s._gyro_count ≤ (_accumulate s)._gyro_count ∧
    s._last_accel_timestamp ≤ (_accumulate s)._last_accel_timestamp ∧
    s._last_gyro_timestamp ≤ (_accumulate s)._last_gyro_timestamp ∧
    (_set_filter_frequency f s)._accel_count = s._accel_count ∧
    (_set_filter_frequency f s)._gyro_count = s._gyro_count ∧
    (update_calibrate rotate scale s)._accel_count = s._accel_count ∧
    (update_calibrate rotate scale s)._gyro_count = s._gyro_count ∧
    (update_filter s)._accel_count = s._accel_count ∧
    (update_filter s)._gyro_count = s._gyro_count ∧
    (_init_sensor CONFIG_ARCH_BOARD_PX4FMU_V1 AP_PRODUCT_ID_PX4 open_accel open_gyro
        sample_rate s).toOption.map (fun r => (r.2._accel_count, r.2._gyro_count)) =
      some (s._accel_count, s._gyro_count) ∧
    (update_snapshot s)._accel_count = 0 ∧ (update_snapshot s)._gyro_count = 0 := by
  have hacc : s._accel_count ≤ (_accumulate s)._accel_count ∧
      s._gyro_count ≤ (_accumulate s)._gyro_count ∧
      s._last_accel_timestamp ≤ (_accumulate s)._last_accel_timestamp ∧
      s._last_gyro_timestamp ≤ (_accumulate s)._last_gyro_timestamp := by
    cases h : s._in_accumulate
    · have hA := accumulate_clear_accel s h
      have hG := accumulate_clear_gyro s h
      rw [hA.2.1, hG.2.1, hA.2.2.1, hG.2.2.1]
      exact ⟨drain_count_ge _ _ _ _ hca, drain_count_ge _ _ _ _ hcg,
        drain_timestamp_ge _ _ _ _ hia, drain_timestamp_ge _ _ _ _ hig⟩
    · have e : _accumulate s = s := by simp [_accumulate, h]
      rw [e]
      exact ⟨le_refl _, le_refl _, le_refl _, le_refl _⟩
  refine ⟨hacc.1, hacc.2.1, hacc.2.2.1, hacc.2.2.2, rfl, rfl, rfl, rfl,
    (update_filter_counts s).1, (update_filter_counts s).2, ?_, rfl, rfl⟩
  rw [init_sensor_ok _ _ _ _ _ _ ha hg]
  simp only [Except.toOption, Option.map_some']
  rw [(init_post_counts _ _ _ _ _).1, (init_post_counts _ _ _ _ _).2]

/-- C13, amended: the theorem applied to a state with counts 0 and eight reports with
timestamps 1..8 queued on each source. -/
theorem accumulate_monotone_witness :
    increasing w_input._last_accel_timestamp w_input.accel_dev = true ∧
    increasing w_input._last_gyro_timestamp w_input.gyro_dev = true ∧
    (_accumulate w_input)._accel_count = 8 ∧
    (_accumulate w_input)._last_gyro_timestamp = 8 ∧
    w_input._accel_count ≤ (_accumulate w_input)._accel_count ∧
    w_input._gyro_count ≤ (_accumulate w_input)._gyro_count ∧
    w_input._last_accel_timestamp ≤ (_accumulate w_input)._last_accel_timestamp ∧
    w_input._last_gyro_timestamp ≤ (_accumulate w_input)._last_gyro_timestamp :=
  ⟨by decide, by decide, by decide, by decide,
    (accumulate_monotone yaw90 ⟨1, 1, 1⟩ 20 false 4 3 4 Sample_rate.RATE_100HZ w_input
      (by decide) (by decide) (by decide) (by decide) (by decide) (by decide)).1,
    (accumulate_monotone yaw90 ⟨1, 1, 1⟩ 20 false 4 3 4 Sample_rate.RATE_100HZ w_input
      (by decide) (by decide) (by decide) (by decide) (by decide) (by decide)).2.1,
    (accumulate_monotone yaw90 ⟨1, 1, 1⟩ 20 false 4 3 4 Sample_rate.RATE_100HZ w_input
      (by decide) (by decide) (by decide) (by decide) (by decide) (by decide)).2.2.1,
    (accumulate_monotone yaw90 ⟨1, 1, 1⟩ 20 false 4 3 4 Sample_rate.RATE_100HZ w_input
      (by decide) (by decide) (by decide) (by decide) (by decide) (by decide)).2.2.2.1⟩

/-- C11: on the 800 Hz driver, `_init_sensor` for the 5 ms period (200 Hz mode) sets the
divider to 4; if the state after init has the guard flag clear and both counts 0, and the
devices are then fed eight accel and eight gyro reports whose timestamps are distinct
from one another and from the recorded last timestamp, `num_samples_available` reports
2 after one accumulation pass; a following `update` (any positive number of polls)
returns `true`, leaves both counts at 0, and `get_delta_time` is the `uint64_t`
difference between the timestamp of the last gyro report and the previous gyro
timestamp, times 1e-6, which is (last - previous) * 1e-6 when previous <= last. -/
theorem end_to_end_scenario [Mul F] [Sub F] [NatCast F] [OfScientific F]
    (rotate : Rot → Vector3 F → Vector3 F) (delay : State F Rot → State F Rot)
    (fuel pid : Nat) (oa og : Int) (s0 s1 : State F Rot) (qa qg : List (Report F))
    (hinit : _init_sensor false pid oa og Sample_rate.RATE_200HZ s0 = Except.ok (pid, s1))
    (hflag : s1._in_accumulate = false)
    (hca : s1._accel_count = 0) (hcg : s1._gyro_count = 0)
    (hla : qa.length = 8) (hlg : qg.length = 8)
    (hda : (s1._last_accel_timestamp :: qa.map (fun r => r.timestamp)).Nodup)
    (hdg : (s1._last_gyro_timestamp :: qg.map (fun r => r.timestamp)).Nodup) :
    driver_rate false = 800 ∧ (rate_settings Sample_rate.RATE_200HZ).1 = 5 ∧
    s1._sample_divider = 4 ∧
    (num_samples_available (feed qa qg s1)).1 = some 2 ∧
    (num_samples_available (feed qa qg s1)).2 = _accumulate (feed qa qg s1) ∧
    update rotate delay (fuel + 1) (_accumulate (feed qa qg s1)) =
      some (true, update_body rotate (_accumulate (feed qa qg s1))) ∧
    (update_body rotate (_accumulate (feed qa qg s1)))._accel_count = 0 ∧
    (update_body rotate (_accumulate (feed qa qg s1)))._gyro_count = 0 ∧
    qg.getLast?.map (fun r => r.timestamp) =
      some (_accumulate (feed qa qg s1))._last_gyro_timestamp ∧
    get_delta_time (update_body rotate (_accumulate (feed qa qg s1))) =
      ((((_accumulate (feed qa qg s1))._last_gyro_timestamp + 2 ^ 64
          - s1._last_update_usec) % 2 ^ 64 : Nat) : F) * (1.0e-6 : F) ∧
    (s1._last_update_usec ≤ (_accumulate (feed qa qg s1))._last_gyro_timestamp →
      (_accumulate (feed qa qg s1))._last_gyro_timestamp < 2 ^ 64 →
      get_delta_time (update_body rotate (_accumulate (feed qa qg s1))) =
        (((_accumulate (feed qa qg s1))._last_gyro_timestamp
            - s1._last_update_usec : Nat) : F) * (1.0e-6 : F)) := by
  -- the two `open` calls succeeded
  have hoa : 0 ≤ oa := by
    by_contra h
    have h1 : oa < 0 := by omega
    simp only [_init_sensor, h1, if_true] at hinit
    cases hinit
  have hog : 0 ≤ og := by
    by_contra h
    have h1 : ¬ oa < 0 := by omega
    have h2 : og < 0 := by omega
    simp only [_init_sensor, h1, h2, if_true, if_false] at hinit
    cases hinit
  have hs1 : s1 = init_post false oa og Sample_rate.RATE_200HZ s0 :=
    (Prod.mk.inj (Except.ok.inj
      (hinit.symm.trans (init_sensor_ok false pid oa og _ s0 hoa hog)))).2
  have hdiv : s1._sample_divider = 4 := by
    rw [hs1, (init_post_fields _ _ _ _ _).2.2.2.1]
    decide
  -- one accumulation pass over the fed devices
  have hflagS : (feed qa qg s1)._in_accumulate = false := hflag
  have hA := accumulate_clear_accel (feed qa qg s1) hflagS
  have hG := accumulate_clear_gyro (feed qa qg s1) hflagS
  have hfa := fresh_of_nodup qa s1._last_accel_timestamp hda
  have hfg := fresh_of_nodup qg s1._last_gyro_timestamp hdg
  have hdA := drain_count_fresh qa s1._accel_in s1._accel_count s1._last_accel_timestamp
    hfa (by omega)
  have hdG := drain_count_fresh qg s1._gyro_in s1._gyro_count s1._last_gyro_timestamp
    hfg (by omega)
  have hcA : (_accumulate (feed qa qg s1))._accel_count = 8 :=
    hA.2.1.trans (hdA.1.trans (by omega))
  have hcG : (_accumulate (feed qa qg s1))._gyro_count = 8 :=
    hG.2.1.trans (hdG.1.trans (by omega))
  have hqA : (_accumulate (feed qa qg s1)).accel_dev = [] := hA.2.2.2.trans hdA.2
  have hqG : (_accumulate (feed qa qg s1)).gyro_dev = [] := hG.2.2.2.trans hdG.2
  have hdivS : (_accumulate (feed qa qg s1))._sample_divider = 4 :=
    (accumulate_divider _).trans hdiv
  have hn : (num_samples_available (feed qa qg s1)).1 = some 2 := by
    simp only [num_samples_available, hdivS, hcA, hcG]
    decide
  -- the poll made by `update` finds the same state
  have hflag2 : (_accumulate (feed qa qg s1))._in_accumulate = false :=
    (accumulate_flag _).1.trans hflagS
  have hidle := accumulate_idle (_accumulate (feed qa qg s1)) hflag2 hqA hqG
  have hn2 : (num_samples_available (_accumulate (feed qa qg s1))).1 = some 2 := by
    simp only [num_samples_available, hidle, hdivS, hcA, hcG]
    decide
  have hwait : update_wait delay (fuel + 1) (_accumulate (feed qa qg s1)) =
      some (_accumulate (feed qa qg s1)) := by
    have := update_wait_ready delay fuel 2 _ hn2 (by decide)
    rw [hidle] at this
    exact this
  have hprev : (_accumulate (feed qa qg s1))._last_update_usec = s1._last_update_usec :=
    (accumulate_flag _).2
  have hdelta := (update_body_delta rotate (_accumulate (feed qa qg s1))).1
  rw [hprev] at hdelta
  -- the last gyro report
  have hlast : qg.getLast?.map (fun r => r.timestamp) =
      some (_accumulate (feed qa qg s1))._last_gyro_timestamp := by
    rcases List.eq_nil_or_concat qg with h | ⟨pre, r, h⟩
    · rw [h] at hlg; simp at hlg
    · rw [List.concat_eq_append] at h
      have hd := drain_fresh_snoc pre r s1._gyro_in s1._gyro_count s1._last_gyro_timestamp
        (by rw [← h]; exact hfg)
      have ht : (_accumulate (feed qa qg s1))._last_gyro_timestamp = r.timestamp := by
        refine hG.2.2.1.trans ?_
        show (drain qg s1._gyro_in s1._gyro_count s1._last_gyro_timestamp).2.2.1 = _
        rw [h, hd]
      rw [ht, h]
      simp
  refine ⟨rfl, rfl, hdiv, hn, rfl, update_of_wait rotate delay _ _ _ hwait,
    (update_body_counts rotate _).1, (update_body_counts rotate _).2, hlast, hdelta, ?_⟩
  intro hle hlt
  rw [hdelta, sub64_of_le _ _ hle hlt]

/-- C11: the theorem applied to the zero-initialised driver after
`_init_sensor(RATE_200HZ)`, fed eight accel and eight gyro reports with timestamps 1..8. -/
theorem end_to_end_scenario_witness :
    _init_sensor false 4 3 4 Sample_rate.RATE_200HZ (zeroState 0 [] []) =
      Except.ok (4, c11_init) ∧
    c11_init._sample_divider = 4 ∧
    (num_samples_available (feed (ramp 0 8) (ramp 0 8) c11_init)).1 = some 2 ∧
    update yaw90 id 1 (_accumulate (feed (ramp 0 8) (ramp 0 8) c11_init)) =
      some (true, update_body yaw90 (_accumulate (feed (ramp 0 8) (ramp 0 8) c11_init))) ∧
    (update_body yaw90 (_accumulate (feed (ramp 0 8) (ramp 0 8) c11_init)))._accel_count = 0 ∧
    (update_body yaw90 (_accumulate (feed (ramp 0 8) (ramp 0 8) c11_init)))._gyro_count = 0 ∧
    (_accumulate (feed (ramp 0 8) (ramp 0 8) c11_init))._last_gyro_timestamp = 8 ∧
    get_delta_time (update_body yaw90 (_accumulate (feed (ramp 0 8) (ramp 0 8) c11_init))) =
      ((((_accumulate (feed (ramp 0 8) (ramp 0 8) c11_init))._last_gyro_timestamp + 2 ^ 64
          - c11_init._last_update_usec) % 2 ^ 64 : Nat) : ℚ) * (1.0e-6 : ℚ) :=
  have h := end_to_end_scenario yaw90 id 0 4 3 4 (zeroState 0 [] []) c11_init
    (ramp 0 8) (ramp 0 8)
    (init_sensor_ok false 4 3 4 Sample_rate.RATE_200HZ (zeroState 0 [] [])
      (by decide) (by decide))
    (by decide) (by decide) (by decide) (by decide) (by decide) (by decide) (by decide)
  ⟨init_sensor_ok false 4 3 4 Sample_rate.RATE_200HZ (zeroState 0 [] [])
      (by decide) (by decide),
    h.2.2.1, h.2.2.2.1, h.2.2.2.2.2.1, h.2.2.2.2.2.2.1, h.2.2.2.2.2.2.2.1, by decide,
    h.2.2.2.2.2.2.2.2.2.1⟩

end Claims

section Telescoping

variable {F : Type} [Field F] {Rot : Type}

/-- C18: for the states `first :: rest` at the snapshot times of n consecutive `update`
calls, whose gyro timestamps satisfy g_0 <= g_1 <= ... <= g_n < 2^64 with g_0 the
previous timestamp of the first call, each delta time is the `uint64_t` difference of
that call times 1e-6, the n differences sum to g_n - g_0, and in exact arithmetic (any
field) the n delta times sum to (g_n - g_0) * 1e-6. -/
theorem delta_time_telescopes (rotate : Rot → Vector3 F → Vector3 F)
    (first : State F Rot) (rest : List (State F Rot))
    (hc : consecutive rotate (first :: rest) = true)
    (hm : nondecreasing first._last_update_usec (first :: rest) = true) :
    ((first :: rest).map usec_diff).sum =
      ((first :: rest).getLast (List.cons_ne_nil _ _))._last_gyro_timestamp
        - first._last_update_usec ∧
    (∀ s : State F Rot,
      get_delta_time (update_body rotate s) = ((usec_diff s : Nat) : F) * (1.0e-6 : F)) ∧
    ((first :: rest).map (fun s => get_delta_time (update_body rotate s))).sum =
      ((((first :: rest).getLast (List.cons_ne_nil _ _))._last_gyro_timestamp
        - first._last_update_usec : Nat) : F) * (1.0e-6 : F) := by
  have hsum := usec_diff_sum rotate rest first hc hm
  have h1 : ((first :: rest).map usec_diff).sum =
      ((first :: rest).getLast (List.cons_ne_nil _ _))._last_gyro_timestamp
        - first._last_update_usec := by omega
  have h2 : ∀ s : State F Rot,
      get_delta_time (update_body rotate s) = ((usec_diff s : Nat) : F) * (1.0e-6 : F) :=
    fun s => (update_body_delta rotate s).1
  refine ⟨h1, h2, ?_⟩
  rw [← h1]
  have e : (fun s : State F Rot => get_delta_time (update_body rotate s)) =
      (fun s : State F Rot => ((usec_diff s : Nat) : F) * (1.0e-6 : F)) := funext h2
  rw [e, List.sum_map_mul_right, Nat.cast_list_sum, List.map_map]
  rfl

/-- C18: the theorem applied to three consecutive calls with gyro timestamps 8, 16, 20
from the previous timestamp 0; the differences 8, 8, 4 sum to 20. -/
theorem delta_time_telescopes_witness :
    [c18_first, c18_second, c18_third].map (fun s => s._last_gyro_timestamp) = [8, 16, 20] ∧
    [c18_first, c18_second, c18_third].map usec_diff = [8, 8, 4] ∧
    c18_first._last_update_usec = 0 ∧
    ([c18_first, c18_second, c18_third].map usec_diff).sum =
      ([c18_first, c18_second, c18_third].getLast (List.cons_ne_nil _ _))._last_gyro_timestamp
        - c18_first._last_update_usec ∧
    ([c18_first, c18_second, c18_third].map
        (fun s => get_delta_time (update_body yaw90 s))).sum =
      ((([c18_first, c18_second, c18_third].getLast
          (List.cons_ne_nil _ _))._last_gyro_timestamp
        - c18_first._last_update_usec : Nat) : ℚ) * (1.0e-6 : ℚ) :=
  ⟨by decide, by decide, by decide,
    (delta_time_telescopes yaw90 c18_first [c18_second, c18_third]
      (by decide) (by decide)).1,
    (delta_time_telescopes yaw90 c18_first [c18_second, c18_third]
      (by decide) (by decide)).2.2⟩

end Telescoping

end AP_InertialSensor_PX4
